import Mathlib

/-!
Verification development for the kivy-garden painter widget
(`kivy_garden/painter/__init__.py`).

Part 1 embeds the controller `PaintCanvasBehaviorBase` as a state machine
over shape identities and their boolean flags (finished / selected /
locked / interacting / is_valid).  Geometry is irrelevant to the
controller-level claims, so shapes are identified by `Nat` ids and the
flag record; the flag mutators (`select`, `deselect`, `finish`, `lock`,
`unlock`, `start_interaction`, `stop_interaction`) are translated from
the `PaintShape` methods of the source, and the controller operations
(`select_shape`, `deselect_shape`, `add_shape`, `remove_shape`,
`finish_current_shape`, `start_shape_interaction`,
`end_shape_interaction`, `lock_shape`, `clear_selected_shapes`,
`delete_all_shapes`) from `PaintCanvasBehaviorBase`.

Part 2 embeds the shape classes (`PaintShape`, `PaintCircle`,
`PaintEllipse`, `PaintPolygon`, `PaintFreeformPolygon`) with rational
coordinates (the Python floats are modelled as exact rationals; the
`kivy.metrics.dp` conversion is modelled at density 1, i.e. the
identity), together with `get_state` / `set_state` serialization and the
`PaintCanvasBehavior` factory methods `create_shape_with_touch`,
`create_shape` and `create_shape_from_state`.
-/

/-- Boolean state flags of a `PaintShape` instance, as used by the
controller.  A freshly constructed shape has all of them `false` except
`is_valid`/`ready_to_finish`, whose defaults depend on the variant
(`True` class attributes on `PaintCircle`/`PaintEllipse`, `False` on
`PaintPolygon`); `ready_to_finish` is not needed at controller level. -/
structure ShapeFlags where
  finished : Bool
  selected : Bool
  locked : Bool
  interacting : Bool
  is_valid : Bool
deriving DecidableEq, Repr

/-- Flags of a freshly constructed shape (`is_valid` depends on the
variant, so it is a parameter). -/
def freshFlags (isv : Bool) : ShapeFlags :=
  ⟨false, false, false, false, isv⟩

/-- `PaintShape.select`: set `selected`, report whether it changed. -/
def ShapeFlags.select (f : ShapeFlags) : ShapeFlags × Bool :=
  if f.selected then (f, false) else ({ f with selected := true }, true)

/-- `PaintShape.deselect`. -/
def ShapeFlags.deselect (f : ShapeFlags) : ShapeFlags × Bool :=
  if f.selected then ({ f with selected := false }, true) else (f, false)

/-- `PaintShape.finish`: set `finished`, report whether it changed. -/
def ShapeFlags.finish (f : ShapeFlags) : ShapeFlags × Bool :=
  if f.finished then (f, false) else ({ f with finished := true }, true)

/-- `PaintShape.lock`. -/
def ShapeFlags.lock (f : ShapeFlags) : ShapeFlags × Bool :=
  if f.locked then (f, false) else ({ f with locked := true }, true)

/-- `PaintShape.unlock`. -/
def ShapeFlags.unlock (f : ShapeFlags) : ShapeFlags × Bool :=
  if f.locked then ({ f with locked := false }, true) else (f, false)

/-- `PaintShape.start_interaction` (ignoring the `pos` argument, which
only feeds graphics). -/
def ShapeFlags.start_interaction (f : ShapeFlags) : ShapeFlags × Bool :=
  if f.interacting then (f, false) else ({ f with interacting := true }, true)

/-- `PaintShape.stop_interaction`. -/
def ShapeFlags.stop_interaction (f : ShapeFlags) : ShapeFlags × Bool :=
  if f.interacting then ({ f with interacting := false }, true) else (f, false)

/-- Controller state of `PaintCanvasBehaviorBase`.  `objects` lists the
ids of all shape instances in existence; `shapes`, `selected_shapes`
and `current_shape` are the controller attributes of the same names;
`flags` gives each instance's flag record. -/
structure PCState where
  objects : List Nat
  shapes : List Nat
  selected_shapes : List Nat
  current_shape : Option Nat
  flags : Nat → ShapeFlags

/-- Update the flag record of one instance. -/
def PCState.setFlags (σ : PCState) (i : Nat) (f : ShapeFlags) : PCState :=
  { σ with flags := fun j => if j = i then f else σ.flags j }

/-- `PaintCanvasBehaviorBase.end_shape_interaction`: drop
`current_shape` and stop interaction on it. -/
def PCState.end_shape_interaction (σ : PCState) : PCState :=
  match σ.current_shape with
  | none => σ
  | some s =>
    ({ σ with current_shape := none }).setFlags s ((σ.flags s).stop_interaction).1

/-- `PaintCanvasBehaviorBase.add_shape`: append and report success. -/
def PCState.add_shape (σ : PCState) (s : Nat) : PCState × Bool :=
  ({ σ with shapes := σ.shapes ++ [s] }, true)

/-- `PaintCanvasBehaviorBase.finish_current_shape`: if the current
shape is finished, merely end the interaction; otherwise finish it,
clear `current_shape` and add it to `shapes` when valid. -/
def PCState.finish_current_shape (σ : PCState) : PCState × Bool :=
  match σ.current_shape with
  | none => (σ, false)
  | some s =>
    if (σ.flags s).finished then
      (σ.end_shape_interaction, true)
    else
      let σ1 := σ.setFlags s ((σ.flags s).finish).1
      let σ2 := { σ1 with current_shape := none }
      if (σ.flags s).is_valid then ((σ2.add_shape s).1, true) else (σ2, true)

/-- `PaintCanvasBehaviorBase.select_shape`: if `shape.select()`
succeeds, finish the current shape and append to `selected_shapes`. -/
def PCState.select_shape (σ : PCState) (s : Nat) : PCState × Bool :=
  let r := (σ.flags s).select
  if r.2 then
    let σ1 := σ.setFlags s r.1
    let σ2 := σ1.finish_current_shape.1
    ({ σ2 with selected_shapes := σ2.selected_shapes ++ [s] }, true)
  else (σ, false)

/-- `PaintCanvasBehaviorBase.deselect_shape`: if `shape.deselect()`
succeeds, remove the shape from `selected_shapes`. -/
def PCState.deselect_shape (σ : PCState) (s : Nat) : PCState × Bool :=
  let r := (σ.flags s).deselect
  if r.2 then
    (({ σ with selected_shapes := σ.selected_shapes.erase s }).setFlags s r.1,
      true)
  else (σ, false)

/-- `PaintCanvasBehaviorBase.remove_shape`: deselect, finish if it is
the current shape, then remove from `shapes` when present. -/
def PCState.remove_shape (σ : PCState) (s : Nat) : PCState × Bool :=
  let σ1 := (σ.deselect_shape s).1
  let σ2 := if σ1.current_shape = some s then σ1.finish_current_shape.1 else σ1
  if s ∈ σ2.shapes then ({ σ2 with shapes := σ2.shapes.erase s }, true)
  else (σ2, false)

/-- `PaintCanvasBehaviorBase.start_shape_interaction` (the source
asserts `current_shape is None` before running; the assertion is a
precondition of the callers below). -/
def PCState.start_shape_interaction (σ : PCState) (s : Nat) : PCState :=
  ({ σ with current_shape := some s }).setFlags
    s ((σ.flags s).start_interaction).1

/-- `PaintCanvasBehaviorBase.lock_shape`: finish if current, deselect
if selected, then lock. -/
def PCState.lock_shape (σ : PCState) (s : Nat) : PCState × Bool :=
  if (σ.flags s).locked then (σ, false)
  else
    let p1 := if σ.current_shape = some s then σ.finish_current_shape
              else (σ, false)
    let σ1 := p1.1
    let p2 := if (σ1.flags s).selected then σ1.deselect_shape s else (σ1, p1.2)
    let σ2 := p2.1
    let r := (σ2.flags s).lock
    (σ2.setFlags s r.1, r.2 || p2.2)

/-- `PaintCanvasBehaviorBase.clear_selected_shapes`: deselect every
currently selected shape (iterating over a copy) and return the copy. -/
def PCState.clear_selected_shapes (σ : PCState) : PCState × List Nat :=
  (σ.selected_shapes.foldl (fun acc s => (acc.deselect_shape s).1) σ,
    σ.selected_shapes)

/-- `PaintCanvasBehaviorBase.delete_all_shapes`: finish the current
shape, snapshot `shapes`, remove each snapshot member that is unlocked
(or every member when `keep_locked_shapes` is false), and return the
whole snapshot. -/
def PCState.delete_all_shapes (σ : PCState) (keep_locked_shapes : Bool) :
    PCState × List Nat :=
  let σ1 := σ.finish_current_shape.1
  let snapshot := σ1.shapes
  (snapshot.foldl
    (fun acc s =>
      if !(acc.flags s).locked || !keep_locked_shapes then
        (acc.remove_shape s).1
      else acc)
    σ1, snapshot)

/-- The empty controller: no instances, nothing selected, no current
shape. -/
def initState : PCState :=
  ⟨[], [], [], none, fun _ => freshFlags false⟩

/-- One atomic mutation of the controller state, as performed by the
public operations of `PaintCanvasBehaviorBase` and by the touch
handlers (which are compositions of these steps: `on_touch_down`,
`do_long_touch`, `on_touch_move` and `on_touch_up` only mutate the
controller through `select_shape` / `deselect_shape` /
`finish_current_shape` / `start_shape_interaction` /
`end_shape_interaction`, through installing a freshly created shape as
`current_shape` (`beginNew`), and through the shape handlers updating
`is_valid` on the current shape (`makeValid`)).

`startInt` carries, besides the source's own `assert
self.current_shape is None`, the discipline under which the controller
invokes it internally (`do_long_touch` first clears the selection and
targets a finished shape found among the members of `shapes`): the
target is not selected and is finished. -/
inductive Step : PCState → PCState → Prop
  | create (σ : PCState) (i : Nat) (isv : Bool) :
      i ∉ σ.objects →
      Step σ { σ with
               objects := σ.objects ++ [i],
               flags := fun j => if j = i then freshFlags isv else σ.flags j }
  | select (σ : PCState) (s : Nat) :
      s ∈ σ.objects → Step σ (σ.select_shape s).1
  | deselect (σ : PCState) (s : Nat) :
      s ∈ σ.objects → Step σ (σ.deselect_shape s).1
  | add (σ : PCState) (s : Nat) :
      s ∈ σ.objects → Step σ (σ.add_shape s).1
  | remove (σ : PCState) (s : Nat) :
      s ∈ σ.objects → Step σ (σ.remove_shape s).1
  | finishCur (σ : PCState) : Step σ σ.finish_current_shape.1
  | startInt (σ : PCState) (s : Nat) :
      s ∈ σ.objects → σ.current_shape = none →
      s ∉ σ.selected_shapes → (σ.flags s).finished = true →
      Step σ (σ.start_shape_interaction s)
  | endInt (σ : PCState) : Step σ σ.end_shape_interaction
  | lock (σ : PCState) (s : Nat) :
      s ∈ σ.objects → Step σ (σ.lock_shape s).1
  | beginNew (σ : PCState) (i : Nat) (isv : Bool) :
      i ∉ σ.objects → σ.current_shape = none →
      Step σ { σ with
               objects := σ.objects ++ [i],
               current_shape := some i,
               flags := fun j => if j = i then freshFlags isv else σ.flags j }
  | makeValid (σ : PCState) (s : Nat) :
      σ.current_shape = some s →
      Step σ (σ.setFlags s { σ.flags s with is_valid := true })

/-- Controller states reachable from the empty controller. -/
inductive Reachable : PCState → Prop
  | init : Reachable initState
  | step (σ σ₂ : PCState) : Reachable σ → Step σ σ₂ → Reachable σ₂

/-- The inductive invariant: the current shape is never selected, no
shape is simultaneously unfinished and interacting, and every selected
shape is a known instance. -/
def CtrlInv (σ : PCState) : Prop :=
  (∀ s, σ.current_shape = some s → s ∉ σ.selected_shapes) ∧
  (∀ i ∈ σ.objects,
    (σ.flags i).finished = false → (σ.flags i).interacting = false) ∧
  (∀ s ∈ σ.selected_shapes, s ∈ σ.objects)

theorem end_shape_interaction_parts (σ : PCState) (s : Nat)
    (h : σ.current_shape = some s) :
    σ.end_shape_interaction.current_shape = none ∧
    σ.end_shape_interaction.selected_shapes = σ.selected_shapes ∧
    σ.end_shape_interaction.objects = σ.objects ∧
    σ.end_shape_interaction.shapes = σ.shapes := by
  unfold PCState.end_shape_interaction
  rw [h]
  simp [PCState.setFlags]

theorem finish_current_parts (σ : PCState) :
    (σ.finish_current_shape.1.selected_shapes = σ.selected_shapes ∧
      σ.finish_current_shape.1.objects = σ.objects) ∧
    (σ.finish_current_shape.1.current_shape = none ∨ σ.current_shape = none) := by
  unfold PCState.finish_current_shape
  cases h : σ.current_shape with
  | none => exact ⟨⟨rfl, rfl⟩, Or.inr rfl⟩
  | some s =>
    by_cases hf : (σ.flags s).finished
    · have he := end_shape_interaction_parts σ s h
      simp [hf, he.1, he.2.1, he.2.2.1]
    · by_cases hv : (σ.flags s).is_valid <;>
        simp [hf, hv, PCState.add_shape, PCState.setFlags]

theorem flagOK_stop (f : ShapeFlags) :
    f.stop_interaction.1.finished = false →
    f.stop_interaction.1.interacting = false := by
  unfold ShapeFlags.stop_interaction
  by_cases hi : f.interacting <;> simp [hi]

theorem flagOK_finish (f : ShapeFlags) :
    f.finish.1.finished = false → f.finish.1.interacting = false := by
  unfold ShapeFlags.finish
  by_cases hf : f.finished <;> simp [hf]

theorem inv_end_shape_interaction (σ : PCState) (h : CtrlInv σ) :
    CtrlInv σ.end_shape_interaction := by
  obtain ⟨h1, h2, h3⟩ := h
  unfold PCState.end_shape_interaction
  cases hc : σ.current_shape with
  | none => exact ⟨h1, h2, h3⟩
  | some s =>
    refine ⟨?_, ?_, ?_⟩
    · intro c hcc
      simp [PCState.setFlags] at hcc
    · intro i hi
      simp only [PCState.setFlags] at hi ⊢
      by_cases his : i = s
      · simpa [his] using flagOK_stop (σ.flags s)
      · simpa [his] using h2 i (by simpa using hi)
    · intro c hcc
      simp only [PCState.setFlags] at hcc ⊢
      exact h3 c hcc

theorem inv_finish_current (σ : PCState) (h : CtrlInv σ) :
    CtrlInv σ.finish_current_shape.1 := by
  obtain ⟨h1, h2, h3⟩ := h
  unfold PCState.finish_current_shape
  cases hc : σ.current_shape with
  | none => exact ⟨h1, h2, h3⟩
  | some s =>
    by_cases hf : (σ.flags s).finished
    · have he := inv_end_shape_interaction σ ⟨h1, h2, h3⟩
      simpa [hf] using he
    · by_cases hv : (σ.flags s).is_valid <;>
      · simp only [hf, hv, Bool.false_eq_true, if_true, if_false, ite_true,
          ite_false, PCState.add_shape, PCState.setFlags]
        refine ⟨?_, ?_, ?_⟩
        · intro c hcc
          simp at hcc
        · intro i hi
          simp only [] at hi ⊢
          by_cases his : i = s
          · simpa [his] using flagOK_finish (σ.flags s)
          · simpa [his] using h2 i (by simpa using hi)
        · intro c hcc
          simp only [] at hcc ⊢
          exact h3 c hcc

theorem finish_current_current (σ : PCState) :
    σ.finish_current_shape.1.current_shape = none := by
  unfold PCState.finish_current_shape
  cases hc : σ.current_shape with
  | none => exact hc
  | some s =>
    by_cases hf : (σ.flags s).finished
    · simpa [hf] using (end_shape_interaction_parts σ s hc).1
    · by_cases hv : (σ.flags s).is_valid <;>
        simp [hf, hv, PCState.add_shape, PCState.setFlags]

theorem finish_current_selected_eq (σ : PCState) :
    σ.finish_current_shape.1.selected_shapes = σ.selected_shapes :=
  (finish_current_parts σ).1.1

theorem finish_current_objects_eq (σ : PCState) :
    σ.finish_current_shape.1.objects = σ.objects :=
  (finish_current_parts σ).1.2

theorem inv_select_shape (σ : PCState) (s : Nat) (hs : s ∈ σ.objects)
    (h : CtrlInv σ) : CtrlInv (σ.select_shape s).1 := by
  obtain ⟨h1, h2, h3⟩ := h
  unfold PCState.select_shape ShapeFlags.select
  by_cases hsel : (σ.flags s).selected
  · simp only [hsel, ite_true, if_pos]
    exact ⟨h1, h2, h3⟩
  · simp only [hsel, Bool.false_eq_true, ite_false, if_neg]
    have hσ1 : CtrlInv (σ.setFlags s { σ.flags s with selected := true }) := by
      refine ⟨by simpa [PCState.setFlags] using h1, ?_,
        by simpa [PCState.setFlags] using h3⟩
      intro i hi
      simp only [PCState.setFlags] at hi ⊢
      by_cases his : i = s
      · simpa [his] using h2 s hs
      · simpa [his] using h2 i (by simpa using hi)
    obtain ⟨g1, g2, g3⟩ := inv_finish_current _ hσ1
    have hcur : (σ.setFlags s { σ.flags s with selected := true
        }).finish_current_shape.1.current_shape = none := finish_current_current _
    have hsel2 : (σ.setFlags s { σ.flags s with selected := true
        }).finish_current_shape.1.selected_shapes = σ.selected_shapes := by
      rw [finish_current_selected_eq]; rfl
    have hobj2 : (σ.setFlags s { σ.flags s with selected := true
        }).finish_current_shape.1.objects = σ.objects := by
      rw [finish_current_objects_eq]; rfl
    refine ⟨?_, g2, ?_⟩
    · intro c hcc
      have hcc2 : (σ.setFlags s { σ.flags s with selected := true
          }).finish_current_shape.1.current_shape = some c := hcc
      rw [hcur] at hcc2
      cases hcc2
    · intro c hcc
      have hcc2 : c ∈ (σ.setFlags s { σ.flags s with selected := true
          }).finish_current_shape.1.selected_shapes ++ [s] := hcc
      rw [hsel2] at hcc2
      have hco : c ∈ σ.objects := by
        rcases List.mem_append.mp hcc2 with hm | hm
        · exact h3 c hm
        · rw [List.mem_singleton.mp hm]; exact hs
      show c ∈ (σ.setFlags s { σ.flags s with selected := true
          }).finish_current_shape.1.objects
      rw [hobj2]; exact hco

theorem inv_deselect_shape (σ : PCState) (s : Nat) (h : CtrlInv σ) :
    CtrlInv (σ.deselect_shape s).1 := by
  obtain ⟨h1, h2, h3⟩ := h
  unfold PCState.deselect_shape ShapeFlags.deselect
  by_cases hsel : (σ.flags s).selected
  · simp only [hsel, ite_true, if_pos]
    refine ⟨?_, ?_, ?_⟩
    · intro c hcc hmem
      exact h1 c hcc (List.mem_of_mem_erase hmem)
    · intro i hi
      simp only [PCState.setFlags] at hi ⊢
      by_cases his : i = s
      · subst his; simpa using h2 i hi
      · simpa [his] using h2 i hi
    · intro c hcc
      simp only [PCState.setFlags] at hcc ⊢
      exact h3 c (List.mem_of_mem_erase hcc)
  · simp only [hsel, Bool.false_eq_true, ite_false, if_neg]
    exact ⟨h1, h2, h3⟩

theorem ctrlinv_set_shapes (σ : PCState) (l : List Nat) (h : CtrlInv σ) :
    CtrlInv { σ with shapes := l } := h

theorem inv_remove_shape (σ : PCState) (s : Nat) (h : CtrlInv σ) :
    CtrlInv (σ.remove_shape s).1 := by
  unfold PCState.remove_shape
  have hd := inv_deselect_shape σ s h
  by_cases hc : (σ.deselect_shape s).1.current_shape = some s
  · simp only [hc, ite_true, if_pos]
    have hf := inv_finish_current _ hd
    by_cases hm : s ∈ (σ.deselect_shape s).1.finish_current_shape.1.shapes
    · simp only [hm, ite_true, if_pos]
      exact ctrlinv_set_shapes _ _ hf
    · simp only [hm, ite_false, if_neg]
      exact hf
  · simp only [hc, ite_false, if_neg]
    by_cases hm : s ∈ (σ.deselect_shape s).1.shapes
    · simp only [hm, ite_true, if_pos]
      exact ctrlinv_set_shapes _ _ hd
    · simp only [hm, ite_false, if_neg]
      exact hd

theorem ctrlinv_lockflag (σ : PCState) (s : Nat) (h : CtrlInv σ) :
    CtrlInv (σ.setFlags s ((σ.flags s).lock).1) := by
  obtain ⟨h1, h2, h3⟩ := h
  refine ⟨by simpa [PCState.setFlags] using h1, ?_,
    by simpa [PCState.setFlags] using h3⟩
  intro i hi
  simp only [PCState.setFlags] at hi ⊢
  by_cases his : i = s
  · subst his
    unfold ShapeFlags.lock
    by_cases hl : (σ.flags i).locked <;> simp [hl] <;> exact h2 i hi
  · simpa [his] using h2 i hi

theorem inv_lock_shape (σ : PCState) (s : Nat) (h : CtrlInv σ) :
    CtrlInv (σ.lock_shape s).1 := by
  unfold PCState.lock_shape
  by_cases hl : (σ.flags s).locked
  · simpa [hl] using h
  · simp only [hl, Bool.false_eq_true, ite_false, if_neg]
    by_cases hcs : σ.current_shape = some s
    · simp only [hcs, ite_true, if_pos]
      by_cases hs2 : (σ.finish_current_shape.1.flags s).selected
      · simp only [hs2, ite_true, if_pos]
        exact ctrlinv_lockflag _ _ (inv_deselect_shape _ _ (inv_finish_current _ h))
      · simp only [hs2, Bool.false_eq_true, ite_false, if_neg]
        exact ctrlinv_lockflag _ _ (inv_finish_current _ h)
    · simp only [hcs, ite_false, if_neg]
      by_cases hs2 : (σ.flags s).selected
      · simp only [hs2, ite_true, if_pos]
        exact ctrlinv_lockflag _ _ (inv_deselect_shape _ _ h)
      · simp only [hs2, Bool.false_eq_true, ite_false, if_neg]
        exact ctrlinv_lockflag _ _ h

theorem reachable_inv (σ : PCState) (h : Reachable σ) : CtrlInv σ := by
  induction h with
  | init =>
    refine ⟨?_, ?_, ?_⟩
    · intro a ha; simp [initState] at ha
    · intro a ha; simp [initState] at ha
    · intro a ha; simp [initState] at ha
  | step σ σ₂ hr hstep ih =>
    cases hstep with
    | create i isv hfresh =>
      obtain ⟨h1, h2, h3⟩ := ih
      refine ⟨fun c hcc => h1 c hcc, ?_, fun c hcc => List.mem_append_left _ (h3 c hcc)⟩
      intro j hj
      by_cases hji : j = i
      · subst hji
        show ((if j = j then freshFlags isv else σ.flags j)).finished = false →
          ((if j = j then freshFlags isv else σ.flags j)).interacting = false
        simp [freshFlags]
      · show ((if j = i then freshFlags isv else σ.flags j)).finished = false →
          ((if j = i then freshFlags isv else σ.flags j)).interacting = false
        rw [if_neg hji]
        have hj2 : j ∈ σ.objects := by
          have hj' : j ∈ σ.objects ++ [i] := hj
          rcases List.mem_append.mp hj' with hm | hm
          · exact hm
          · exact absurd (List.mem_singleton.mp hm) hji
        exact h2 j hj2
    | select s hmem => exact inv_select_shape σ s hmem ih
    | deselect s hmem => exact inv_deselect_shape σ s ih
    | add s hmem => exact ctrlinv_set_shapes σ _ ih
    | remove s hmem => exact inv_remove_shape σ s ih
    | finishCur => exact inv_finish_current σ ih
    | startInt s hmem hcur hnsel hfin =>
      obtain ⟨h1, h2, h3⟩ := ih
      unfold PCState.start_shape_interaction
      refine ⟨?_, ?_, ?_⟩
      · intro c hcc
        have hsc : some s = some c := hcc
        cases hsc
        intro hmem2
        exact hnsel hmem2
      · intro i hi
        simp only [PCState.setFlags] at hi ⊢
        by_cases his : i = s
        · subst his
          unfold ShapeFlags.start_interaction
          by_cases hint : (σ.flags i).interacting <;> simp [hint, hfin]
        · simpa [his] using h2 i hi
      · intro c hcc
        simp only [PCState.setFlags] at hcc ⊢
        exact h3 c hcc
    | endInt => exact inv_end_shape_interaction σ ih
    | lock s hmem => exact inv_lock_shape σ s ih
    | beginNew i isv hfresh hcur =>
      obtain ⟨h1, h2, h3⟩ := ih
      refine ⟨?_, ?_, fun c hcc => List.mem_append_left _ (h3 c hcc)⟩
      · intro c hcc
        have hic : some i = some c := hcc
        cases hic
        intro hmem2
        exact hfresh (h3 _ hmem2)
      · intro j hj
        by_cases hji : j = i
        · subst hji
          show ((if j = j then freshFlags isv else σ.flags j)).finished = false →
            ((if j = j then freshFlags isv else σ.flags j)).interacting = false
          simp [freshFlags]
        · show ((if j = i then freshFlags isv else σ.flags j)).finished = false →
            ((if j = i then freshFlags isv else σ.flags j)).interacting = false
          rw [if_neg hji]
          have hj2 : j ∈ σ.objects := by
            have hj' : j ∈ σ.objects ++ [i] := hj
            rcases List.mem_append.mp hj' with hm | hm
            · exact hm
            · exact absurd (List.mem_singleton.mp hm) hji
          exact h2 j hj2
    | makeValid s hcur =>
      obtain ⟨h1, h2, h3⟩ := ih
      refine ⟨by simpa [PCState.setFlags] using h1, ?_,
        by simpa [PCState.setFlags] using h3⟩
      intro i hi
      simp only [PCState.setFlags] at hi ⊢
      by_cases his : i = s
      · subst his; simpa using h2 i hi
      · simpa [his] using h2 i hi

/-- State of a controller holding one freshly constructed, unfinished,
unselected shape (id 0, `is_valid` false as for a fresh
`PaintPolygon`). -/
def cexState1 : PCState := ⟨[0], [], [], none, fun _ => freshFlags false⟩

/-- The same controller after the public call `select_shape(shape0)`. -/
def cexState2 : PCState := (cexState1.select_shape 0).1

/-- The same controller after the public call
`start_shape_interaction(shape0)` (its `assert current_shape is None`
holds, see `C1_counterexample`). -/
def cexState3 : PCState := cexState2.start_shape_interaction 0

/-- C1, counterexample: the claimed invariant is not maintained by
arbitrary use of the public operations.  Starting from a controller
holding one fresh unfinished shape, calling `select_shape(s)` and then
`start_shape_interaction(s)` (whose `assert self.current_shape is
None` is satisfied, so the call runs) yields a state in which
`current_shape` IS a member of `selected_shapes`, and that shape is
simultaneously unfinished (being drawn) and `interacting`. -/
theorem C1_counterexample :
    cexState2.current_shape = none ∧
    cexState3.current_shape = some 0 ∧
    0 ∈ cexState3.selected_shapes ∧
    (cexState3.flags 0).finished = false ∧
    (cexState3.flags 0).interacting = true := by decide

/-- C1 (amended): in every controller state reachable via the public
operations (`select_shape`, `deselect_shape`, `add_shape`,
`remove_shape`, `finish_current_shape`, `start_shape_interaction`,
`end_shape_interaction`, `lock_shape`, and the touch handlers),
provided `start_shape_interaction` is only invoked on finished shapes
that are not currently selected — which is how the controller itself
invokes it: `do_long_touch` clears the selection first — the shape
held in `current_shape` is never a member of `selected_shapes`, and no
shape is simultaneously being drawn (unfinished) and being interacted
with (`interacting = true`). -/
theorem C1_reachable_controller_invariant (σ : PCState) (h : Reachable σ) :
    (∀ s, σ.current_shape = some s → s ∉ σ.selected_shapes) ∧
    (∀ i ∈ σ.objects,
      ¬((σ.flags i).finished = false ∧ (σ.flags i).interacting = true)) := by
  obtain ⟨h1, h2, _⟩ := reachable_inv σ h
  refine ⟨h1, ?_⟩
  intro i hi hcon
  have hfalse := h2 i hi hcon.1
  rw [hcon.2] at hfalse
  cases hfalse

/-- Controller state reached by constructing a fresh valid shape. -/
def c1w1 : PCState :=
  { initState with
    objects := initState.objects ++ [0],
    flags := fun j => if j = 0 then freshFlags true else initState.flags j }

/-- Controller state reached by then calling `select_shape` on it. -/
def c1w2 : PCState := (c1w1.select_shape 0).1

/-- Witness for `C1_reachable_controller_invariant` at a concrete
reachable state. -/
theorem C1_reachable_controller_invariant_witness :
    Reachable c1w2 ∧
    ((∀ s, c1w2.current_shape = some s → s ∉ c1w2.selected_shapes) ∧
     (∀ i ∈ c1w2.objects,
       ¬((c1w2.flags i).finished = false ∧ (c1w2.flags i).interacting = true))) := by
  have r1 : Reachable c1w1 :=
    Reachable.step _ _ Reachable.init (Step.create initState 0 true (by decide))
  have r2 : Reachable c1w2 :=
    Reachable.step _ _ r1 (Step.select c1w1 0 (by decide))
  exact ⟨r2, C1_reachable_controller_invariant c1w2 r2⟩

theorem deselect_shape_eq_pos (σ : PCState) (s : Nat)
    (hsel : (σ.flags s).selected = true) :
    σ.deselect_shape s
      = (({ σ with selected_shapes := σ.selected_shapes.erase s }).setFlags s
          { σ.flags s with selected := false }, true) := by
  unfold PCState.deselect_shape ShapeFlags.deselect
  simp [hsel]

theorem deselect_shape_eq_neg (σ : PCState) (s : Nat)
    (hsel : (σ.flags s).selected = false) :
    σ.deselect_shape s = (σ, false) := by
  unfold PCState.deselect_shape ShapeFlags.deselect
  simp [hsel]

theorem deselect_parts (σ : PCState) (s : Nat) :
    (σ.deselect_shape s).1.shapes = σ.shapes ∧
    (σ.deselect_shape s).1.current_shape = σ.current_shape ∧
    (σ.deselect_shape s).1.objects = σ.objects ∧
    (∀ i, ((σ.deselect_shape s).1.flags i).locked = (σ.flags i).locked) := by
  by_cases hsel : (σ.flags s).selected
  · rw [deselect_shape_eq_pos σ s hsel]
    refine ⟨rfl, rfl, rfl, ?_⟩
    intro i
    show ((if i = s then { σ.flags s with selected := false } else σ.flags i) :
      ShapeFlags).locked = (σ.flags i).locked
    by_cases his : i = s <;> simp [his]
  · rw [deselect_shape_eq_neg σ s (by simpa using hsel)]
    exact ⟨rfl, rfl, rfl, fun i => rfl⟩

theorem finish_current_none_eq (σ : PCState) (h : σ.current_shape = none) :
    σ.finish_current_shape = (σ, false) := by
  unfold PCState.finish_current_shape
  rw [h]

theorem remove_shape_parts (σ : PCState) (s : Nat)
    (hc : σ.current_shape = none) :
    (σ.remove_shape s).1.shapes = σ.shapes.erase s ∧
    (σ.remove_shape s).1.current_shape = none ∧
    (∀ i, ((σ.remove_shape s).1.flags i).locked = (σ.flags i).locked) := by
  unfold PCState.remove_shape
  have hd := deselect_parts σ s
  have hcond : ¬((σ.deselect_shape s).1.current_shape = some s) := by
    rw [hd.2.1, hc]; simp
  simp only [hcond, ite_false, if_neg]
  by_cases hm : s ∈ (σ.deselect_shape s).1.shapes
  · simp only [hm, ite_true, if_pos]
    exact ⟨by show (σ.deselect_shape s).1.shapes.erase s = _; rw [hd.1],
      by show (σ.deselect_shape s).1.current_shape = none; rw [hd.2.1, hc],
      fun i => hd.2.2.2 i⟩
  · simp only [hm, ite_false, if_neg]
    have hm2 : s ∉ σ.shapes := by rw [← hd.1]; exact hm
    exact ⟨by rw [hd.1, List.erase_of_not_mem hm2],
      by rw [hd.2.1, hc], fun i => hd.2.2.2 i⟩

theorem delete_fold_shapes (p : Bool → Bool) :
    ∀ (todo : List Nat) (acc : PCState), acc.current_shape = none →
    (todo.foldl (fun a s =>
      if p (a.flags s).locked then (a.remove_shape s).1 else a) acc).shapes
    = todo.foldl (fun l s =>
      if p (acc.flags s).locked then l.erase s else l) acc.shapes := by
  intro todo
  induction todo with
  | nil => intro acc _; rfl
  | cons s rest ih =>
    intro acc hc
    simp only [List.foldl_cons]
    have hp := remove_shape_parts acc s hc
    by_cases hcond : p (acc.flags s).locked
    · rw [if_pos hcond, if_pos hcond, ih (acc.remove_shape s).1 hp.2.1, hp.1]
      apply List.foldl_ext
      intro l t _
      rw [hp.2.2 t]
    · rw [if_neg hcond, if_neg hcond]
      exact ih acc hc

theorem foldl_erase_keep_head (p : Nat → Bool) (x : Nat) :
    ∀ (todo acc : List Nat), (∀ s ∈ todo, p s = true → s ≠ x) →
    todo.foldl (fun l s => if p s then l.erase s else l) (x :: acc)
      = x :: todo.foldl (fun l s => if p s then l.erase s else l) acc := by
  intro todo
  induction todo with
  | nil => intro acc _; rfl
  | cons s rest ih =>
    intro acc hx
    simp only [List.foldl_cons]
    by_cases hps : p s
    · have hsx : s ≠ x := hx s (List.mem_cons_self s rest) (by simpa using hps)
      simp only [hps, ite_true, if_pos]
      rw [List.erase_cons_tail]
      · exact ih (acc.erase s) (fun t ht => hx t (List.mem_cons_of_mem s ht))
      · simp [Ne.symm hsx]
    · simp only [hps, Bool.false_eq_true, ite_false, if_neg]
      exact ih acc (fun t ht => hx t (List.mem_cons_of_mem s ht))

theorem foldl_erase_filter (p : Nat → Bool) :
    ∀ l : List Nat,
    l.foldl (fun acc s => if p s then acc.erase s else acc) l
      = l.filter (fun s => !p s) := by
  intro l
  induction l with
  | nil => rfl
  | cons x xs ih =>
    simp only [List.foldl_cons]
    by_cases hpx : p x
    · rw [if_pos hpx, List.erase_cons_head, ih, List.filter_cons]
      simp [hpx]
    · rw [if_neg hpx]
      have hkeep := foldl_erase_keep_head p x xs xs
        (fun t _ hpt heq => hpx (heq ▸ hpt))
      rw [hkeep, ih, List.filter_cons]
      have : (!p x) = true := by simpa using hpx
      simp [this]

/-- C9: `delete_all_shapes(keep_locked_shapes=True)` finishes the
current shape, then removes exactly the unlocked shapes from `shapes`
(the locked shapes remain, in order), yet returns the entire prior
`shapes` list — the snapshot taken after finishing the current shape —
including the locked shapes that were not deleted.  When no shape is
current, the snapshot is exactly the prior `shapes` list. -/
theorem C9_delete_all_keeps_locked_returns_all (σ : PCState) :
    (σ.delete_all_shapes true).2 = σ.finish_current_shape.1.shapes ∧
    (σ.delete_all_shapes true).1.shapes
      = σ.finish_current_shape.1.shapes.filter
          (fun s => (σ.finish_current_shape.1.flags s).locked) ∧
    (σ.current_shape = none →
      (σ.delete_all_shapes true).2 = σ.shapes ∧
      (σ.delete_all_shapes true).1.shapes
        = σ.shapes.filter (fun s => (σ.flags s).locked)) := by
  have hb : (σ.delete_all_shapes true).1.shapes
      = σ.finish_current_shape.1.shapes.filter
          (fun s => (σ.finish_current_shape.1.flags s).locked) := by
    have h1 : (σ.delete_all_shapes true).1.shapes
        = σ.finish_current_shape.1.shapes.foldl
            (fun l s =>
              if !(σ.finish_current_shape.1.flags s).locked || !true then
                l.erase s
              else l)
            σ.finish_current_shape.1.shapes :=
      delete_fold_shapes (fun b => !b || !true) _ _ (finish_current_current σ)
    have h2 : σ.finish_current_shape.1.shapes.foldl
            (fun l s =>
              if !(σ.finish_current_shape.1.flags s).locked || !true then
                l.erase s
              else l)
            σ.finish_current_shape.1.shapes
        = σ.finish_current_shape.1.shapes.filter
            (fun s => !(!(σ.finish_current_shape.1.flags s).locked || !true)) :=
      foldl_erase_filter
        (fun s => !(σ.finish_current_shape.1.flags s).locked || !true) _
    rw [h1, h2]
    apply List.filter_congr
    intro x _
    cases hlk : (σ.finish_current_shape.1.flags x).locked <;> simp [hlk]
  refine ⟨rfl, hb, ?_⟩
  intro h
  constructor
  · show σ.finish_current_shape.1.shapes = σ.shapes
    rw [finish_current_none_eq σ h]
  · rw [hb, finish_current_none_eq σ h]

/-- Controller with two finished shapes: shape 1 locked, shape 2
unlocked; no current shape. -/
def c9State : PCState :=
  ⟨[1, 2], [1, 2], [], none,
    fun j => if j = 1 then ⟨true, false, true, false, true⟩
             else ⟨true, false, false, false, true⟩⟩

/-- Witness for `C9_delete_all_keeps_locked_returns_all`: on a
controller with a locked shape 1 and an unlocked shape 2, the call
returns the whole list `[1, 2]` while only shape 2 is deleted. -/
theorem C9_delete_all_keeps_locked_returns_all_witness :
    c9State.current_shape = none ∧
    ((c9State.delete_all_shapes true).2 = c9State.shapes ∧
      (c9State.delete_all_shapes true).1.shapes
        = c9State.shapes.filter (fun s => (c9State.flags s).locked)) ∧
    (c9State.delete_all_shapes true).2 = [1, 2] ∧
    (c9State.delete_all_shapes true).1.shapes = [1] :=
  ⟨rfl, (C9_delete_all_keeps_locked_returns_all c9State).2.2 rfl,
    by decide, by decide⟩

theorem deselect_flag_self (σ : PCState) (s : Nat) :
    ((σ.deselect_shape s).1.flags s).selected = false := by
  by_cases hsel : (σ.flags s).selected
  · rw [deselect_shape_eq_pos σ s hsel]
    show ((if s = s then { σ.flags s with selected := false } else σ.flags s) :
      ShapeFlags).selected = false
    rw [if_pos rfl]
  · rw [deselect_shape_eq_neg σ s (by simpa using hsel)]
    simpa using hsel

theorem deselect_flags_keep (σ : PCState) (s i : Nat) :
    ((σ.deselect_shape s).1.flags i).finished = (σ.flags i).finished ∧
    ((σ.deselect_shape s).1.flags i).is_valid = (σ.flags i).is_valid := by
  by_cases hsel : (σ.flags s).selected
  · rw [deselect_shape_eq_pos σ s hsel]
    show ((if i = s then { σ.flags s with selected := false } else σ.flags i) :
        ShapeFlags).finished = _ ∧
      ((if i = s then { σ.flags s with selected := false } else σ.flags i) :
        ShapeFlags).is_valid = _
    by_cases his : i = s <;> simp [his]
  · rw [deselect_shape_eq_neg σ s (by simpa using hsel)]
    exact ⟨rfl, rfl⟩

theorem deselect_selected_shapes_pos (σ : PCState) (s : Nat)
    (h : (σ.flags s).selected = true) :
    (σ.deselect_shape s).1.selected_shapes = σ.selected_shapes.erase s := by
  rw [deselect_shape_eq_pos σ s h]; rfl

theorem deselect_selected_shapes_neg (σ : PCState) (s : Nat)
    (h : (σ.flags s).selected = false) :
    (σ.deselect_shape s).1.selected_shapes = σ.selected_shapes := by
  rw [deselect_shape_eq_neg σ s h]

theorem end_shape_interaction_flags_selected (σ : PCState) (i : Nat) :
    (σ.end_shape_interaction.flags i).selected = (σ.flags i).selected := by
  unfold PCState.end_shape_interaction
  cases hc : σ.current_shape with
  | none => rfl
  | some s =>
    show ((if i = s then ((σ.flags s).stop_interaction).1 else σ.flags i) :
      ShapeFlags).selected = _
    by_cases his : i = s
    · subst his
      rw [if_pos rfl]
      unfold ShapeFlags.stop_interaction
      by_cases hint : (σ.flags i).interacting
      · rw [if_pos hint]
      · rw [if_neg hint]
    · rw [if_neg his]

theorem finish_current_eq_some (σ : PCState) (s : Nat)
    (hc : σ.current_shape = some s) :
    σ.finish_current_shape
      = if (σ.flags s).finished then (σ.end_shape_interaction, true)
        else if (σ.flags s).is_valid then
          ((({ σ.setFlags s ((σ.flags s).finish).1 with
              current_shape := none }).add_shape s).1, true)
        else ({ σ.setFlags s ((σ.flags s).finish).1 with
              current_shape := none }, true) := by
  unfold PCState.finish_current_shape
  rw [hc]

theorem finish_current_flags_selected (σ : PCState) (i : Nat) :
    (σ.finish_current_shape.1.flags i).selected = (σ.flags i).selected := by
  cases hc : σ.current_shape with
  | none => rw [finish_current_none_eq σ hc]
  | some s =>
    rw [finish_current_eq_some σ s hc]
    by_cases hf : (σ.flags s).finished
    · rw [if_pos hf]
      exact end_shape_interaction_flags_selected σ i
    · rw [if_neg hf]
      by_cases hv : (σ.flags s).is_valid
      · rw [if_pos hv]
        show ((if i = s then ((σ.flags s).finish).1 else σ.flags i) :
          ShapeFlags).selected = _
        by_cases his : i = s
        · subst his
          rw [if_pos rfl]
          unfold ShapeFlags.finish
          rw [if_neg hf]
        · rw [if_neg his]
      · rw [if_neg hv]
        show ((if i = s then ((σ.flags s).finish).1 else σ.flags i) :
          ShapeFlags).selected = _
        by_cases his : i = s
        · subst his
          rw [if_pos rfl]
          unfold ShapeFlags.finish
          rw [if_neg hf]
        · rw [if_neg his]

theorem finish_no_add_shapes (σ : PCState) (s : Nat)
    (hc : σ.current_shape = some s)
    (hclash : (σ.flags s).finished = true ∨ (σ.flags s).is_valid = false) :
    σ.finish_current_shape.1.shapes = σ.shapes := by
  rw [finish_current_eq_some σ s hc]
  by_cases hf : (σ.flags s).finished
  · rw [if_pos hf]
    exact (end_shape_interaction_parts σ s hc).2.2.2
  · rcases hclash with hcl | hcl
    · exact absurd hcl hf
    · rw [if_neg hf, if_neg (by simp [hcl])]; rfl

/-- A controller whose `current_shape` is a freshly drawn, unfinished
but valid shape (id 0) that is not yet in `shapes`. -/
def c10State : PCState := ⟨[0], [], [], some 0, fun _ => freshFlags true⟩

/-- C10, counterexample: `remove_shape` on a shape that is NOT in
`shapes` can return `True`.  If the shape is the current shape,
unfinished and valid, `remove_shape` first finishes it — which appends
it to `shapes` — and then finds and removes it, returning `True`, so
the claim "returns false for every shape not in the shapes list" is
false. -/
theorem C10_counterexample :
    0 ∉ c10State.shapes ∧ (c10State.remove_shape 0).2 = true := by decide

/-- C10 (amended): for a shape `s` not in `shapes`, `remove_shape(s)`
returns `False` — except in the one case in which `s` is the current
shape, unfinished and valid, where finishing re-adds it and the call
returns `True` (see the counterexample).  Even in the failing cases the
call is not a pure no-op: it clears the shape's `selected` flag and
removes it from `selected_shapes` when it was selected, and it finishes
the shape (clearing `current_shape`) when it was the current shape. -/
theorem C10_remove_shape_not_member (σ : PCState) (s : Nat)
    (hmem : s ∉ σ.shapes)
    (hexc : ¬(σ.current_shape = some s ∧ (σ.flags s).finished = false ∧
      (σ.flags s).is_valid = true)) :
    (σ.remove_shape s).2 = false ∧
    ((σ.remove_shape s).1.flags s).selected = false ∧
    ((σ.flags s).selected = true →
      (σ.remove_shape s).1.selected_shapes = σ.selected_shapes.erase s) ∧
    ((σ.flags s).selected = false →
      (σ.remove_shape s).1.selected_shapes = σ.selected_shapes) ∧
    (σ.current_shape = some s → (σ.remove_shape s).1.current_shape = none) := by
  have hd := deselect_parts σ s
  simp only [PCState.remove_shape]
  by_cases hcur : (σ.deselect_shape s).1.current_shape = some s
  · rw [if_pos hcur]
    have hcs : σ.current_shape = some s := by rw [← hd.2.1]; exact hcur
    have hclash : ((σ.deselect_shape s).1.flags s).finished = true ∨
        ((σ.deselect_shape s).1.flags s).is_valid = false := by
      rcases Bool.eq_false_or_eq_true (σ.flags s).finished with hf | hf
      · left; rw [(deselect_flags_keep σ s s).1]; exact hf
      · rcases Bool.eq_false_or_eq_true (σ.flags s).is_valid with hv | hv
        · exact absurd ⟨hcs, hf, hv⟩ hexc
        · right; rw [(deselect_flags_keep σ s s).2]; exact hv
    have hnotmem : s ∉ (σ.deselect_shape s).1.finish_current_shape.1.shapes := by
      rw [finish_no_add_shapes _ s hcur hclash, hd.1]; exact hmem
    rw [if_neg hnotmem]
    refine ⟨rfl, ?_, ?_, ?_, fun _ => finish_current_current _⟩
    · rw [show ((σ.deselect_shape s).1.finish_current_shape.1, false).1
          = (σ.deselect_shape s).1.finish_current_shape.1 from rfl,
        finish_current_flags_selected]
      exact deselect_flag_self σ s
    · intro hs
      rw [show ((σ.deselect_shape s).1.finish_current_shape.1, false).1
          = (σ.deselect_shape s).1.finish_current_shape.1 from rfl,
        finish_current_selected_eq]
      exact deselect_selected_shapes_pos σ s hs
    · intro hs
      rw [show ((σ.deselect_shape s).1.finish_current_shape.1, false).1
          = (σ.deselect_shape s).1.finish_current_shape.1 from rfl,
        finish_current_selected_eq]
      exact deselect_selected_shapes_neg σ s hs
  · rw [if_neg hcur]
    have hnm : s ∉ (σ.deselect_shape s).1.shapes := by
      rw [hd.1]; exact hmem
    rw [if_neg hnm]
    refine ⟨rfl, deselect_flag_self σ s, ?_, ?_, ?_⟩
    · intro hs; exact deselect_selected_shapes_pos σ s hs
    · intro hs; exact deselect_selected_shapes_neg σ s hs
    · intro hcs
      exact absurd (by rw [hd.2.1]; exact hcs) hcur

/-- A controller with a finished, selected shape (id 0) that is the
current shape (being interacted with) but not in `shapes`. -/
def c10wState : PCState :=
  ⟨[0], [], [0], some 0, fun _ => ⟨true, true, false, true, true⟩⟩

/-- Witness for `C10_remove_shape_not_member`: removing the selected,
finished current shape that is not in `shapes` returns `False` but
deselects and finishes it. -/
theorem C10_remove_shape_not_member_witness :
    (0 ∉ c10wState.shapes) ∧
    ¬(c10wState.current_shape = some 0 ∧ (c10wState.flags 0).finished = false ∧
      (c10wState.flags 0).is_valid = true) ∧
    ((c10wState.remove_shape 0).2 = false ∧
      ((c10wState.remove_shape 0).1.flags 0).selected = false ∧
      ((c10wState.flags 0).selected = true →
        (c10wState.remove_shape 0).1.selected_shapes
          = c10wState.selected_shapes.erase 0) ∧
      ((c10wState.flags 0).selected = false →
        (c10wState.remove_shape 0).1.selected_shapes
          = c10wState.selected_shapes) ∧
      (c10wState.current_shape = some 0 →
        (c10wState.remove_shape 0).1.current_shape = none)) :=
  ⟨by decide, by decide,
    C10_remove_shape_not_member c10wState 0 (by decide) (by decide)⟩

/-- `kivy.metrics.dp`, modelled at display density 1 (the identity on
device-independent units). -/
def dp (x : ℚ) : ℚ := x

/-- The state of a `PaintShape` instance: style fields plus the shape
lifecycle flags.  Python float values are modelled as exact
rationals. -/
structure PaintShape where
  line_width : ℚ
  pointsize : ℚ
  line_color : List ℚ
  selection_point_color : List ℚ
  line_color_locked : List ℚ
  selected : Bool
  locked : Bool
  finished : Bool
  interacting : Bool
  ready_to_finish : Bool
  is_valid : Bool
deriving DecidableEq, Repr

/-- `PaintShape.__init__` defaults: `line_color=(0, 1, 0, 1)`,
`line_width=1`, `line_color_locked=(.4, .56, .36, 1)`, `pointsize=2`,
`selection_point_color=(1, .5, .31, 1)`; all lifecycle flags start
false (`ready_to_finish`/`is_valid` are overridden per variant). -/
def PaintShape.init : PaintShape :=
  { line_width := 1
    pointsize := 2
    line_color := [0, 1, 0, 1]
    selection_point_color := [1, 0.5, 0.31, 1]
    line_color_locked := [0.4, 0.56, 0.36, 1]
    selected := false
    locked := false
    finished := false
    interacting := false
    ready_to_finish := false
    is_valid := false }

/-- `PaintShape.finish`. -/
def PaintShape.finish (s : PaintShape) : PaintShape × Bool :=
  if s.finished then (s, false) else ({ s with finished := true }, true)

/-- `PaintShape.lock`. -/
def PaintShape.lock (s : PaintShape) : PaintShape × Bool :=
  if s.locked then (s, false) else ({ s with locked := true }, true)

/-- `PaintShape.unlock`. -/
def PaintShape.unlock (s : PaintShape) : PaintShape × Bool :=
  if s.locked then ({ s with locked := false }, true) else (s, false)

/-- `PaintCircle`: a circle with `center` and `radius`. -/
structure PaintCircle extends PaintShape where
  center : ℚ × ℚ
  radius : ℚ
deriving DecidableEq, Repr

/-- A freshly constructed `PaintCircle` (`center=[0, 0]`,
`radius='10dp'`; class attributes set `ready_to_finish` and `is_valid`
to `True`). -/
def PaintCircle.init : PaintCircle :=
  { toPaintShape :=
      { PaintShape.init with ready_to_finish := true, is_valid := true }
    center := (0, 0)
    radius := dp 10 }

/-- `PaintEllipse`: center, the two radii and the axis rotation
`angle` (radians). -/
structure PaintEllipse extends PaintShape where
  center : ℚ × ℚ
  radius_x : ℚ
  radius_y : ℚ
  angle : ℚ
deriving DecidableEq, Repr

/-- A freshly constructed `PaintEllipse` (`radius_x='10dp'`,
`radius_y='15dp'`, `angle=0`). -/
def PaintEllipse.init : PaintEllipse :=
  { toPaintShape :=
      { PaintShape.init with ready_to_finish := true, is_valid := true }
    center := (0, 0)
    radius_x := dp 10
    radius_y := dp 15
    angle := 0 }

/-- `PaintPolygon`: flattened vertex list `points = [x1, y1, x2, y2,
...]`, the designated `selection_point`, and the `_last_point_moved`
cache used while dragging a vertex. -/
structure PaintPolygon extends PaintShape where
  points : List ℚ
  selection_point : List ℚ
  _last_point_moved : Option Nat
deriving DecidableEq, Repr

/-- A freshly constructed `PaintPolygon` (`ready_to_finish` and
`is_valid` stay `False`). -/
def PaintPolygon.init : PaintPolygon :=
  { toPaintShape := PaintShape.init
    points := []
    selection_point := []
    _last_point_moved := none }

/-- `PaintCircle.translate(dpos=..., pos=...)`: move the center by
`dpos`, or to `pos`, or re-emit the current center. -/
def PaintCircle.translate (c : PaintCircle) (dpos pos : Option (ℚ × ℚ)) :
    PaintCircle × Bool :=
  let xy : ℚ × ℚ :=
    match dpos with
    | some (dx, dy) => (c.center.1 + dx, c.center.2 + dy)
    | none =>
      match pos with
      | some p => p
      | none => c.center
  ({ c with center := xy }, true)

/-- `PaintEllipse.translate`: same center logic as the circle (radii
and angle are unchanged). -/
def PaintEllipse.translate (e : PaintEllipse) (dpos pos : Option (ℚ × ℚ)) :
    PaintEllipse × Bool :=
  let xy : ℚ × ℚ :=
    match dpos with
    | some (dx, dy) => (e.center.1 + dx, e.center.2 + dy)
    | none =>
      match pos with
      | some p => p
      | none => e.center
  ({ e with center := xy }, true)

/-- The loop in `PaintPolygon.translate` that offsets every flattened
coordinate pair by `(dx, dy)` (defined on even-length lists; a
trailing odd element is left unchanged — the source never produces
odd-length `points`). -/
def translateFlat : List ℚ → ℚ → ℚ → List ℚ
  | x :: y :: rest, dx, dy => (x + dx) :: (y + dy) :: translateFlat rest dx dy
  | l, _, _ => l

/-- `PaintPolygon.translate`: offsets every vertex and then sets
`selection_point` to the (new) first vertex pair, `new_points[:2]`.
The `pos` branch computes the delta from `selection_point`; calling
with neither argument is `assert False` in the source (modelled as a
zero delta, unreachable). -/
def PaintPolygon.translate (p : PaintPolygon) (dpos pos : Option (ℚ × ℚ)) :
    PaintPolygon × Bool :=
  let d : ℚ × ℚ :=
    match dpos with
    | some d => d
    | none =>
      match pos with
      | some (x, y) =>
        (x - p.selection_point.headD 0, y - (p.selection_point.drop 1).headD 0)
      | none => (0, 0)
  let new_points := translateFlat p.points d.1 d.2
  ({ p with selection_point := new_points.take 2, points := new_points }, true)

/-- `PaintPolygon.set_valid`: `is_valid = len(points) >= 6`. -/
def PaintPolygon.set_valid (p : PaintPolygon) : PaintPolygon :=
  { p with is_valid := decide (6 ≤ p.points.length) }

/-- `PaintPolygon.handle_touch_up`: while unfinished, a double tap
sets `ready_to_finish`; otherwise a touch inside the widget appends
`touch.pos` to `points` (initialising `selection_point` when empty)
and sets `is_valid` once six flattened coordinates exist.  On a
finished polygon it clears the `_last_point_moved` drag cache. -/
def PaintPolygon.handle_touch_up (p : PaintPolygon) (pos : ℚ × ℚ)
    (is_double_tap outside : Bool) : PaintPolygon :=
  if !p.finished then
    if is_double_tap then { p with ready_to_finish := true }
    else if !outside then
      let sp := if p.selection_point.isEmpty then [pos.1, pos.2]
                else p.selection_point
      let new_points := p.points ++ [pos.1, pos.2]
      let iv := if 6 ≤ new_points.length then true else p.is_valid
      { p with selection_point := sp, points := new_points, is_valid := iv }
    else p
  else { p with _last_point_moved := none }

/-- The dict produced by `PaintCircle.get_state`: the base keys
`line_color, line_width, is_valid, locked, line_color_locked` (note:
NOT `pointsize` and NOT `selection_point_color`) plus `center` and
`radius`; the `cls` tag lives in `PaintShapeState`. -/
structure CircleState where
  line_color : List ℚ
  line_width : ℚ
  is_valid : Bool
  locked : Bool
  line_color_locked : List ℚ
  center : ℚ × ℚ
  radius : ℚ
deriving DecidableEq, Repr

/-- The dict produced by `PaintEllipse.get_state`. -/
structure EllipseState where
  line_color : List ℚ
  line_width : ℚ
  is_valid : Bool
  locked : Bool
  line_color_locked : List ℚ
  center : ℚ × ℚ
  radius_x : ℚ
  radius_y : ℚ
  angle : ℚ
deriving DecidableEq, Repr

/-- The dict produced by `PaintPolygon.get_state` (also used by
`PaintFreeformPolygon`, which adds no fields of its own). -/
structure PolygonState where
  line_color : List ℚ
  line_width : ℚ
  is_valid : Bool
  locked : Bool
  line_color_locked : List ℚ
  points : List ℚ
  selection_point : List ℚ
deriving DecidableEq, Repr

/-- A `get_state` dict together with its `cls` discriminator tag (the
tag always agrees with the key set, since `get_state` writes
`d['cls'] = self.__class__.__name__`). -/
inductive PaintShapeState
  | circle (st : CircleState)
  | ellipse (st : EllipseState)
  | polygon (st : PolygonState)
  | freeform (st : PolygonState)
deriving DecidableEq, Repr

/-- The `cls` entry of the state dict: the shape class name. -/
def PaintShapeState.cls : PaintShapeState → String
  | .circle _ => "PaintCircle"
  | .ellipse _ => "PaintEllipse"
  | .polygon _ => "PaintPolygon"
  | .freeform _ => "PaintFreeformPolygon"

/-- `PaintCircle.get_state`. -/
def PaintCircle.get_state (c : PaintCircle) : CircleState :=
  { line_color := c.line_color
    line_width := c.line_width
    is_valid := c.is_valid
    locked := c.locked
    line_color_locked := c.line_color_locked
    center := c.center
    radius := c.radius }

/-- `PaintEllipse.get_state`. -/
def PaintEllipse.get_state (e : PaintEllipse) : EllipseState :=
  { line_color := e.line_color
    line_width := e.line_width
    is_valid := e.is_valid
    locked := e.locked
    line_color_locked := e.line_color_locked
    center := e.center
    radius_x := e.radius_x
    radius_y := e.radius_y
    angle := e.angle }

/-- `PaintPolygon.get_state`. -/
def PaintPolygon.get_state (p : PaintPolygon) : PolygonState :=
  { line_color := p.line_color
    line_width := p.line_width
    is_valid := p.is_valid
    locked := p.locked
    line_color_locked := p.line_color_locked
    points := p.points
    selection_point := p.selection_point }

/-- `PaintShape.finish` lifted to a circle. -/
def PaintCircle.finish (c : PaintCircle) : PaintCircle × Bool :=
  let r := c.toPaintShape.finish
  ({ c with toPaintShape := r.1 }, r.2)

/-- `PaintShape.lock` lifted to a circle. -/
def PaintCircle.lock (c : PaintCircle) : PaintCircle × Bool :=
  let r := c.toPaintShape.lock
  ({ c with toPaintShape := r.1 }, r.2)

/-- `PaintShape.unlock` lifted to a circle. -/
def PaintCircle.unlock (c : PaintCircle) : PaintCircle × Bool :=
  let r := c.toPaintShape.unlock
  ({ c with toPaintShape := r.1 }, r.2)

/-- `PaintShape.finish` lifted to an ellipse. -/
def PaintEllipse.finish (e : PaintEllipse) : PaintEllipse × Bool :=
  let r := e.toPaintShape.finish
  ({ e with toPaintShape := r.1 }, r.2)

/-- `PaintShape.lock` lifted to an ellipse. -/
def PaintEllipse.lock (e : PaintEllipse) : PaintEllipse × Bool :=
  let r := e.toPaintShape.lock
  ({ e with toPaintShape := r.1 }, r.2)

/-- `PaintShape.unlock` lifted to an ellipse. -/
def PaintEllipse.unlock (e : PaintEllipse) : PaintEllipse × Bool :=
  let r := e.toPaintShape.unlock
  ({ e with toPaintShape := r.1 }, r.2)

/-- `PaintPolygon.finish` (the override only removes the dashed
closing line from the canvas; the state change is the base
`PaintShape.finish`). -/
def PaintPolygon.finish (p : PaintPolygon) : PaintPolygon × Bool :=
  let r := p.toPaintShape.finish
  ({ p with toPaintShape := r.1 }, r.2)

/-- `PaintShape.lock` lifted to a polygon. -/
def PaintPolygon.lock (p : PaintPolygon) : PaintPolygon × Bool :=
  let r := p.toPaintShape.lock
  ({ p with toPaintShape := r.1 }, r.2)

/-- `PaintShape.unlock` lifted to a polygon. -/
def PaintPolygon.unlock (p : PaintPolygon) : PaintPolygon × Bool :=
  let r := p.toPaintShape.unlock
  ({ p with toPaintShape := r.1 }, r.2)

/-- `PaintShape.set_state` on a circle: `setattr` every dict entry
except `locked` and `cls` (so `pointsize` and
`selection_point_color`, absent from the dict, keep the instance's
own values), then `finish()`, then `lock()`/`unlock()` per the dict's
`locked` entry. -/
def PaintCircle.set_state (t : PaintCircle) (st : CircleState) : PaintCircle :=
  let t1 := { t with
    line_color := st.line_color
    line_width := st.line_width
    is_valid := st.is_valid
    line_color_locked := st.line_color_locked
    center := st.center
    radius := st.radius }
  let t2 := t1.finish.1
  if st.locked then t2.lock.1 else t2.unlock.1

/-- `PaintShape.set_state` on an ellipse. -/
def PaintEllipse.set_state (t : PaintEllipse) (st : EllipseState) :
    PaintEllipse :=
  let t1 := { t with
    line_color := st.line_color
    line_width := st.line_width
    is_valid := st.is_valid
    line_color_locked := st.line_color_locked
    center := st.center
    radius_x := st.radius_x
    radius_y := st.radius_y
    angle := st.angle }
  let t2 := t1.finish.1
  if st.locked then t2.lock.1 else t2.unlock.1

/-- `PaintShape.set_state` on a polygon. -/
def PaintPolygon.set_state (t : PaintPolygon) (st : PolygonState) :
    PaintPolygon :=
  let t1 := { t with
    line_color := st.line_color
    line_width := st.line_width
    is_valid := st.is_valid
    line_color_locked := st.line_color_locked
    points := st.points
    selection_point := st.selection_point }
  let t2 := t1.finish.1
  if st.locked then t2.lock.1 else t2.unlock.1

/-- A shape instance of any of the four drawable variants.
`PaintFreeformPolygon` shares `PaintPolygon`'s state and only
overrides the touch handlers, so it carries a `PaintPolygon`. -/
inductive AnyShape
  | circle (c : PaintCircle)
  | ellipse (e : PaintEllipse)
  | polygon (pg : PaintPolygon)
  | freeform (pg : PaintPolygon)
deriving DecidableEq, Repr

/-- `get_state` with the `cls` discriminator, over any variant. -/
def AnyShape.get_state : AnyShape → PaintShapeState
  | .circle c => .circle c.get_state
  | .ellipse e => .ellipse e.get_state
  | .polygon pg => .polygon pg.get_state
  | .freeform pg => .freeform pg.get_state

/-- The `is_valid` flag of any variant. -/
def AnyShape.is_valid : AnyShape → Bool
  | .circle c => c.is_valid
  | .ellipse e => e.is_valid
  | .polygon pg => pg.is_valid
  | .freeform pg => pg.is_valid

/-- `set_valid`, dispatched over the variants: a pass (no-op) on the
base class, hence on circles and ellipses; the length test on
polygons. -/
def AnyShape.set_valid : AnyShape → AnyShape
  | .circle c => .circle c
  | .ellipse e => .ellipse e
  | .polygon pg => .polygon pg.set_valid
  | .freeform pg => .freeform pg.set_valid

/-- `finish`, dispatched over the variants. -/
def AnyShape.finish : AnyShape → AnyShape × Bool
  | .circle c => let r := c.finish; (.circle r.1, r.2)
  | .ellipse e => let r := e.finish; (.ellipse r.1, r.2)
  | .polygon pg => let r := pg.finish; (.polygon r.1, r.2)
  | .freeform pg => let r := pg.finish; (.freeform r.1, r.2)

/-- `PaintCanvasBehavior.shape_cls_map`: maps a `draw_mode` string to
the shape class (modelled by the fresh instance the class constructs),
to `None` for `'none'`, and raises `KeyError` (outer `Option.none`)
for unknown keys. -/
def shape_cls_map (draw_mode : String) : Option (Option AnyShape) :=
  if draw_mode = "circle" then some (some (.circle PaintCircle.init))
  else if draw_mode = "ellipse" then some (some (.ellipse PaintEllipse.init))
  else if draw_mode = "polygon" then some (some (.polygon PaintPolygon.init))
  else if draw_mode = "freeform" then some (some (.freeform PaintPolygon.init))
  else if draw_mode = "none" then some none
  else none

/-- `PaintCanvasBehavior.create_shape_with_touch`: raises `TypeError`
only when `draw_mode` is the Python value `None` (modelled as
`Option.none`; an `OptionProperty` restricted to the five mode
strings can never hold it); for the mode string `'none'`,
`shape_cls_map` yields `None` and the method silently returns `None`;
otherwise it instantiates the mapped class. -/
def create_shape_with_touch (draw_mode : Option String) :
    Except String (Option AnyShape) :=
  match draw_mode with
  | none => .error "Cannot create a shape when the draw mode is none"
  | some m =>
    match shape_cls_map m with
    | none => .error "KeyError"
    | some none => .ok none
    | some (some shape) => .ok (some shape)

/-- `PaintCanvasBehavior.create_shape`: the instance constructed from
`shape_cls_map[cls_name](**inst_kwargs)` is supplied by the caller;
then `set_valid()`, `finish()`, and a `ValueError` unless
`is_valid`. -/
def create_shape (shape0 : AnyShape) : Except String AnyShape :=
  let s1 := shape0.set_valid
  let s2 := s1.finish.1
  if s2.is_valid then .ok s2
  else .error "Shape is not valid and cannot be added"

/-- `PaintCanvasBehavior.create_shape_from_state` (shape
reconstruction): instantiate the class named by the dict's `cls` tag,
`set_state`, `set_valid`, `finish`, and raise `ValueError` unless
valid. -/
def create_shape_from_state (st : PaintShapeState) : Except String AnyShape :=
  let shape : AnyShape :=
    match st with
    | .circle cst => .circle (PaintCircle.init.set_state cst)
    | .ellipse est => .ellipse (PaintEllipse.init.set_state est)
    | .polygon pst => .polygon (PaintPolygon.init.set_state pst)
    | .freeform pst => .freeform (PaintPolygon.init.set_state pst)
  let s1 := shape.set_valid
  let s2 := s1.finish.1
  if s2.is_valid then .ok s2
  else .error "Shape is not valid and cannot be added"

/-- `create_shape_from_state(state, add=...)` including the `add`
step: on success the shape is appended to the painter's `shapes` when
`add` is true (`add_shape` appends and returns `True`). -/
def create_shape_from_state_add (st : PaintShapeState) (add : Bool)
    (shapes : List AnyShape) : Except String (AnyShape × List AnyShape) :=
  match create_shape_from_state st with
  | .error e => .error e
  | .ok shape => .ok (shape, if add then shapes ++ [shape] else shapes)

/-- C6: on a shape with `finished=false`, the first `finish()` returns
`True` and sets `finished`; the second call returns `False` and
changes nothing. -/
theorem C6_finish_idempotent (s : PaintShape) (h : s.finished = false) :
    (s.finish.2 = true ∧ s.finish.1.finished = true) ∧
    (s.finish.1.finish.2 = false ∧ s.finish.1.finish.1 = s.finish.1) := by
  unfold PaintShape.finish
  simp [h]

/-- Witness for `C6_finish_idempotent` on a freshly constructed
shape. -/
theorem C6_finish_idempotent_witness :
    PaintShape.init.finished = false ∧
    ((PaintShape.init.finish.2 = true ∧
      PaintShape.init.finish.1.finished = true) ∧
     (PaintShape.init.finish.1.finish.2 = false ∧
      PaintShape.init.finish.1.finish.1 = PaintShape.init.finish.1)) :=
  ⟨rfl, C6_finish_idempotent PaintShape.init rfl⟩

/-- C8: `set_valid` makes `is_valid` exactly `len(points) >= 6`; in
particular a polygon with 2 vertices (4 flattened coordinates) is
invalid and one with 3 or more vertices (6 or more coordinates) is
valid.  Along the vertex-appending touch-up path, appending to a
2-coordinate polygon (giving 2 vertices) leaves `is_valid` false,
while appending to a 4-coordinate polygon (giving 3 vertices) sets it
true. -/
theorem C8_polygon_validity_threshold (p : PaintPolygon) (pos : ℚ × ℚ) :
    (p.set_valid.is_valid = true ↔ 6 ≤ p.points.length) ∧
    (p.points.length = 4 → p.set_valid.is_valid = false) ∧
    (6 ≤ p.points.length → p.set_valid.is_valid = true) ∧
    (p.finished = false → p.is_valid = false → p.points.length = 2 →
      (p.handle_touch_up pos false false).is_valid = false) ∧
    (p.finished = false → p.points.length = 4 →
      (p.handle_touch_up pos false false).is_valid = true) := by
  refine ⟨?_, ?_, ?_, ?_, ?_⟩
  · show decide (6 ≤ p.points.length) = true ↔ 6 ≤ p.points.length
    exact decide_eq_true_iff
  · intro h4
    show decide (6 ≤ p.points.length) = false
    rw [h4]; rfl
  · intro h6
    show decide (6 ≤ p.points.length) = true
    exact decide_eq_true h6
  · intro hf hv h2
    unfold PaintPolygon.handle_touch_up
    simp [hf, hv, h2]
  · intro hf h4
    unfold PaintPolygon.handle_touch_up
    simp [hf, h4]

/-- A polygon with 2 vertices, mid-draw. -/
def c8Poly : PaintPolygon :=
  { PaintPolygon.init with points := [0, 0, 10, 0], selection_point := [0, 0] }

/-- Witness for `C8_polygon_validity_threshold` on a two-vertex
polygon: `set_valid` leaves it invalid, and the touch-up appending the
third vertex makes it valid. -/
theorem C8_polygon_validity_threshold_witness :
    c8Poly.points.length = 4 ∧ c8Poly.finished = false ∧
    c8Poly.set_valid.is_valid = false ∧
    (c8Poly.handle_touch_up (5, 7) false false).is_valid = true :=
  ⟨rfl, rfl, (C8_polygon_validity_threshold c8Poly (5, 7)).2.1 rfl,
    (C8_polygon_validity_threshold c8Poly (5, 7)).2.2.2.2 rfl rfl⟩

/-- A mid-draw polygon whose single vertex is `(10, 10)`. -/
def c4Poly : PaintPolygon :=
  { PaintPolygon.init with points := [10, 10], selection_point := [10, 10] }

/-- C4, counterexample: a touch-up at exactly the last appended
vertex — the same position even before flooring — still appends a
duplicate vertex; there is no dedup anywhere in
`PaintPolygon.handle_touch_up`, so the claimed floored-comparison
dedup does not exist. -/
theorem C4_counterexample :
    c4Poly.points = [10, 10] ∧
    (c4Poly.handle_touch_up (10, 10) false false).points
      = [10, 10, 10, 10] ∧
    (c4Poly.handle_touch_up (10, 10) false false).points ≠ c4Poly.points := by
  refine ⟨rfl, by decide, by decide⟩

/-- C4 (amended): on an unfinished polygon, every touch-up that is not
a double tap and not outside the widget appends the touch position
unconditionally — even when it equals the last appended vertex — and a
double tap appends nothing, setting `ready_to_finish` instead. -/
theorem C4_touch_up_appends_unconditionally (p : PaintPolygon) (pos : ℚ × ℚ)
    (hf : p.finished = false) :
    (p.handle_touch_up pos false false).points = p.points ++ [pos.1, pos.2] ∧
    (p.handle_touch_up pos false false).selection_point
      = (if p.selection_point.isEmpty then [pos.1, pos.2]
         else p.selection_point) ∧
    (p.handle_touch_up pos true false).points = p.points ∧
    (p.handle_touch_up pos true false).ready_to_finish = true := by
  unfold PaintPolygon.handle_touch_up
  simp [hf]

/-- A mid-draw polygon with one vertex `(1, 2)`. -/
def c4wPoly : PaintPolygon :=
  { PaintPolygon.init with points := [1, 2], selection_point := [1, 2] }

/-- Witness for `C4_touch_up_appends_unconditionally`. -/
theorem C4_touch_up_appends_unconditionally_witness :
    c4wPoly.finished = false ∧
    ((c4wPoly.handle_touch_up (3, 4) false false).points
        = c4wPoly.points ++ [3, 4] ∧
     (c4wPoly.handle_touch_up (3, 4) false false).selection_point
        = (if c4wPoly.selection_point.isEmpty then [3, 4]
           else c4wPoly.selection_point) ∧
     (c4wPoly.handle_touch_up (3, 4) true false).points = c4wPoly.points ∧
     (c4wPoly.handle_touch_up (3, 4) true false).ready_to_finish = true) :=
  ⟨rfl, C4_touch_up_appends_unconditionally c4wPoly (3, 4) rfl⟩

theorem translateFlat_add_neg (dx dy : ℚ) :
    ∀ l : List ℚ, translateFlat (translateFlat l dx dy) (-dx) (-dy) = l
  | [] => rfl
  | [x] => rfl
  | x :: y :: rest => by
    show (x + dx + -dx) :: (y + dy + -dy)
        :: translateFlat (translateFlat rest dx dy) (-dx) (-dy)
      = x :: y :: rest
    rw [translateFlat_add_neg dx dy rest,
      show x + dx + -dx = x from by ring,
      show y + dy + -dy = y from by ring]

/-- A polygon whose selection point is its second vertex (permitted by
the `selection_point` docstring, which only requires "a corresponding
point in `points`"). -/
def c7Poly : PaintPolygon :=
  { PaintPolygon.init with points := [1, 2, 3, 4], selection_point := [3, 4] }

/-- C7, counterexample: translating a polygon by `(5, 5)` and back by
`(-5, -5)` restores the vertex list but NOT the selection point
whenever the selection point was not the first vertex:
`PaintPolygon.translate` unconditionally resets `selection_point` to
`new_points[:2]`. -/
theorem C7_counterexample :
    ((c7Poly.translate (some (5, 5)) none).1.translate
        (some (-5, -5)) none).1.points = c7Poly.points ∧
    ((c7Poly.translate (some (5, 5)) none).1.translate
        (some (-5, -5)) none).1.selection_point = [1, 2] ∧
    ((c7Poly.translate (some (5, 5)) none).1.translate
        (some (-5, -5)) none).1.selection_point ≠ c7Poly.selection_point := by
  have hpts := translateFlat_add_neg 5 5 c7Poly.points
  refine ⟨hpts, ?_, ?_⟩
  · show (translateFlat (translateFlat c7Poly.points 5 5) (-5) (-5)).take 2
      = [1, 2]
    rw [hpts]
    rfl
  · show (translateFlat (translateFlat c7Poly.points 5 5) (-5) (-5)).take 2
      ≠ c7Poly.selection_point
    rw [hpts]
    decide

/-- C7 (amended): `translate(dpos=(5,5))` then `translate(dpos=(-5,-5))`
restores the center of a circle or ellipse exactly, and restores a
polygon's vertex list exactly; the polygon's selection point is also
restored provided it equals the first vertex pair (`points[:2]`), the
invariant the drawing and editing code maintains — otherwise it is
reset to the first vertex (see the counterexample). -/
theorem C7_translate_roundtrip (c : PaintCircle) (e : PaintEllipse)
    (p : PaintPolygon) (hsp : p.selection_point = p.points.take 2) :
    ((c.translate (some (5, 5)) none).1.translate
        (some (-5, -5)) none).1.center = c.center ∧
    ((e.translate (some (5, 5)) none).1.translate
        (some (-5, -5)) none).1.center = e.center ∧
    ((p.translate (some (5, 5)) none).1.translate
        (some (-5, -5)) none).1.points = p.points ∧
    ((p.translate (some (5, 5)) none).1.translate
        (some (-5, -5)) none).1.selection_point = p.selection_point := by
  refine ⟨?_, ?_, ?_, ?_⟩
  · show ((c.center.1 + 5 + -5, c.center.2 + 5 + -5) : ℚ × ℚ) = c.center
    rw [show c.center.1 + 5 + -5 = c.center.1 from by ring,
      show c.center.2 + 5 + -5 = c.center.2 from by ring]
  · show ((e.center.1 + 5 + -5, e.center.2 + 5 + -5) : ℚ × ℚ) = e.center
    rw [show e.center.1 + 5 + -5 = e.center.1 from by ring,
      show e.center.2 + 5 + -5 = e.center.2 from by ring]
  · show translateFlat (translateFlat p.points 5 5) (-5) (-5) = p.points
    exact translateFlat_add_neg 5 5 p.points
  · show (translateFlat (translateFlat p.points 5 5) (-5) (-5)).take 2
      = p.selection_point
    rw [translateFlat_add_neg 5 5 p.points, hsp]

/-- A circle, an ellipse and a polygon (with the selection point at
the first vertex) used as the round-trip witness. -/
def c7wCircle : PaintCircle :=
  { PaintCircle.init with center := (100, 200), radius := 7 }

/-- The witness ellipse. -/
def c7wEllipse : PaintEllipse :=
  { PaintEllipse.init with center := (30, 40), radius_x := 8, radius_y := 9 }

/-- The witness polygon; `selection_point` is the first vertex. -/
def c7wPoly : PaintPolygon :=
  { PaintPolygon.init with
    points := [0, 0, 10, 0, 10, 10], selection_point := [0, 0] }

/-- Witness for `C7_translate_roundtrip`. -/
theorem C7_translate_roundtrip_witness :
    c7wPoly.selection_point = c7wPoly.points.take 2 ∧
    (((c7wCircle.translate (some (5, 5)) none).1.translate
        (some (-5, -5)) none).1.center = c7wCircle.center ∧
     ((c7wEllipse.translate (some (5, 5)) none).1.translate
        (some (-5, -5)) none).1.center = c7wEllipse.center ∧
     ((c7wPoly.translate (some (5, 5)) none).1.translate
        (some (-5, -5)) none).1.points = c7wPoly.points ∧
     ((c7wPoly.translate (some (5, 5)) none).1.translate
        (some (-5, -5)) none).1.selection_point = c7wPoly.selection_point) :=
  ⟨rfl, C7_translate_roundtrip c7wCircle c7wEllipse c7wPoly rfl⟩

/-- `set_state`, dispatched over the variants (`state['cls']` always
agrees with the key set for dicts produced by `get_state`; the
mismatched combinations cannot arise from `create_shape_from_state`,
which instantiates the class named by the tag). -/
def AnyShape.set_state (s : AnyShape) (st : PaintShapeState) : AnyShape :=
  match s, st with
  | .circle c, .circle cst => .circle (c.set_state cst)
  | .ellipse e, .ellipse est => .ellipse (e.set_state est)
  | .polygon pg, .polygon pst => .polygon (pg.set_state pst)
  | .freeform pg, .freeform pst => .freeform (pg.set_state pst)
  | s, _ => s

theorem c2CircleAux (c : PaintCircle) :
    PaintCircle.init.set_state c.get_state
      = { toPaintShape :=
            { PaintShape.init with
                line_color := c.line_color
                line_width := c.line_width
                is_valid := c.is_valid
                line_color_locked := c.line_color_locked
                finished := true
                ready_to_finish := true
                locked := c.locked }
          center := c.center
          radius := c.radius } := by
  unfold PaintCircle.set_state PaintCircle.get_state PaintCircle.finish
    PaintShape.finish PaintCircle.lock PaintCircle.unlock PaintShape.lock
    PaintShape.unlock
  by_cases hl : c.locked <;> simp [hl, PaintCircle.init, PaintShape.init]

theorem c2EllipseAux (e : PaintEllipse) :
    PaintEllipse.init.set_state e.get_state
      = { toPaintShape :=
            { PaintShape.init with
                line_color := e.line_color
                line_width := e.line_width
                is_valid := e.is_valid
                line_color_locked := e.line_color_locked
                finished := true
                ready_to_finish := true
                locked := e.locked }
          center := e.center
          radius_x := e.radius_x
          radius_y := e.radius_y
          angle := e.angle } := by
  unfold PaintEllipse.set_state PaintEllipse.get_state PaintEllipse.finish
    PaintShape.finish PaintEllipse.lock PaintEllipse.unlock PaintShape.lock
    PaintShape.unlock
  by_cases hl : e.locked <;> simp [hl, PaintEllipse.init, PaintShape.init]

theorem c2PolyAux (p : PaintPolygon) :
    PaintPolygon.init.set_state p.get_state
      = { toPaintShape :=
            { PaintShape.init with
                line_color := p.line_color
                line_width := p.line_width
                is_valid := p.is_valid
                line_color_locked := p.line_color_locked
                finished := true
                locked := p.locked }
          points := p.points
          selection_point := p.selection_point
          _last_point_moved := none } := by
  unfold PaintPolygon.set_state PaintPolygon.get_state PaintPolygon.finish
    PaintShape.finish PaintPolygon.lock PaintPolygon.unlock PaintShape.lock
    PaintShape.unlock
  by_cases hl : p.locked <;> simp [hl, PaintPolygon.init, PaintShape.init]

/-- C2 (amended): for every variant, applying `set_state(get_state(s))`
to a fresh instance of the same variant reproduces every geometry
field and the serialized style fields `line_color`, `line_width` and
`line_color_locked` (plus `is_valid` and `locked`), and the state dict
carries the `cls` tag identifying the variant; but `pointsize` and
`selection_point_color` are NOT serialized by `get_state` and keep
the fresh instance's constructor defaults (see the counterexample). -/
theorem C2_state_roundtrip (c : PaintCircle) (e : PaintEllipse)
    (p q : PaintPolygon) :
    ((PaintCircle.init.set_state c.get_state).center = c.center ∧
     (PaintCircle.init.set_state c.get_state).radius = c.radius ∧
     (PaintCircle.init.set_state c.get_state).line_color = c.line_color ∧
     (PaintCircle.init.set_state c.get_state).line_width = c.line_width ∧
     (PaintCircle.init.set_state c.get_state).line_color_locked
       = c.line_color_locked ∧
     (PaintCircle.init.set_state c.get_state).is_valid = c.is_valid ∧
     (PaintCircle.init.set_state c.get_state).locked = c.locked) ∧
    ((PaintEllipse.init.set_state e.get_state).center = e.center ∧
     (PaintEllipse.init.set_state e.get_state).radius_x = e.radius_x ∧
     (PaintEllipse.init.set_state e.get_state).radius_y = e.radius_y ∧
     (PaintEllipse.init.set_state e.get_state).angle = e.angle ∧
     (PaintEllipse.init.set_state e.get_state).line_color = e.line_color ∧
     (PaintEllipse.init.set_state e.get_state).line_width = e.line_width ∧
     (PaintEllipse.init.set_state e.get_state).line_color_locked
       = e.line_color_locked ∧
     (PaintEllipse.init.set_state e.get_state).is_valid = e.is_valid ∧
     (PaintEllipse.init.set_state e.get_state).locked = e.locked) ∧
    ((PaintPolygon.init.set_state p.get_state).points = p.points ∧
     (PaintPolygon.init.set_state p.get_state).selection_point
       = p.selection_point ∧
     (PaintPolygon.init.set_state p.get_state).line_color = p.line_color ∧
     (PaintPolygon.init.set_state p.get_state).line_width = p.line_width ∧
     (PaintPolygon.init.set_state p.get_state).line_color_locked
       = p.line_color_locked ∧
     (PaintPolygon.init.set_state p.get_state).is_valid = p.is_valid ∧
     (PaintPolygon.init.set_state p.get_state).locked = p.locked) ∧
    ((AnyShape.freeform PaintPolygon.init).set_state
        (AnyShape.freeform q).get_state
      = AnyShape.freeform (PaintPolygon.init.set_state q.get_state)) ∧
    ((AnyShape.circle c).get_state.cls = "PaintCircle" ∧
     (AnyShape.ellipse e).get_state.cls = "PaintEllipse" ∧
     (AnyShape.polygon p).get_state.cls = "PaintPolygon" ∧
     (AnyShape.freeform q).get_state.cls = "PaintFreeformPolygon") := by
  refine ⟨?_, ?_, ?_, rfl, rfl, rfl, rfl, rfl⟩
  · rw [c2CircleAux c]
    exact ⟨rfl, rfl, rfl, rfl, rfl, rfl, rfl⟩
  · rw [c2EllipseAux e]
    exact ⟨rfl, rfl, rfl, rfl, rfl, rfl, rfl, rfl, rfl⟩
  · rw [c2PolyAux p]
    exact ⟨rfl, rfl, rfl, rfl, rfl, rfl, rfl⟩

/-- A circle carrying a non-default `pointsize` (the constructor
default is 2). -/
def c2Circle : PaintCircle := { PaintCircle.init with pointsize := 5 }

/-- C2, counterexample: `pointsize` does not survive the
`get_state`/`set_state` round trip — it is not one of the serialized
keys, so the fresh instance keeps its own default 2 instead of the
original's 5 (the same holds for `selection_point_color`). -/
theorem C2_counterexample :
    c2Circle.pointsize = 5 ∧
    (PaintCircle.init.set_state c2Circle.get_state).pointsize = 2 ∧
    (PaintCircle.init.set_state c2Circle.get_state).pointsize
      ≠ c2Circle.pointsize := by
  refine ⟨rfl, ?_, ?_⟩
  · rw [c2CircleAux c2Circle]
    rfl
  · rw [c2CircleAux c2Circle]
    decide

/-- C3, counterexample: when the draw mode is the string `'none'`,
`create_shape_with_touch` does NOT raise — the guard `draw_mode is
None` compares against the Python value `None`, which an
`OptionProperty` over the five mode strings never holds, so
`shape_cls_map['none'] = None` is looked up and the method silently
returns `None`. -/
theorem C3_counterexample :
    create_shape_with_touch (some "none") = Except.ok none := rfl

/-- C3 (amended): with `draw_mode = 'none'` the controller's
`create_shape_with_touch` silently returns `None` (the callers then
mark the gesture done without creating anything); no mode string ever
raises — the `TypeError` branch fires only for the Python value
`None`, which the `draw_mode` `OptionProperty` cannot hold. -/
theorem C3_draw_mode_none_returns_none :
    create_shape_with_touch (some "none") = Except.ok none ∧
    create_shape_with_touch none
      = Except.error "Cannot create a shape when the draw mode is none" ∧
    (∀ m : String,
      m ∈ (["circle", "ellipse", "polygon", "freeform", "none"] :
        List String) →
      ∀ msg, create_shape_with_touch (some m) ≠ Except.error msg) := by
  refine ⟨rfl, rfl, ?_⟩
  intro m hm msg
  simp only [List.mem_cons, List.not_mem_nil, or_false] at hm
  rcases hm with rfl | rfl | rfl | rfl | rfl <;>
    simp [create_shape_with_touch, shape_cls_map]

/-- Witness for `C3_draw_mode_none_returns_none` at the mode
`'polygon'`. -/
theorem C3_draw_mode_none_returns_none_witness :
    ("polygon" ∈ (["circle", "ellipse", "polygon", "freeform", "none"] :
      List String)) ∧
    create_shape_with_touch (some "polygon") ≠ Except.error "KeyError" :=
  ⟨by decide,
    C3_draw_mode_none_returns_none.2.2 "polygon" (by decide) "KeyError"⟩

theorem polygon_finish_is_valid (p : PaintPolygon) :
    p.finish.1.is_valid = p.is_valid := by
  unfold PaintPolygon.finish PaintShape.finish
  by_cases hf : p.finished <;> simp [hf]

theorem c5PolyAux (st : PolygonState) :
    PaintPolygon.init.set_state st
      = { toPaintShape :=
            { PaintShape.init with
                line_color := st.line_color
                line_width := st.line_width
                is_valid := st.is_valid
                line_color_locked := st.line_color_locked
                finished := true
                locked := st.locked }
          points := st.points
          selection_point := st.selection_point
          _last_point_moved := none } := by
  unfold PaintPolygon.set_state PaintPolygon.finish PaintShape.finish
    PaintPolygon.lock PaintPolygon.unlock PaintShape.lock PaintShape.unlock
  by_cases hl : st.locked <;> simp [hl, PaintPolygon.init, PaintShape.init]

theorem c5ValidAux (st : PolygonState) :
    ((PaintPolygon.init.set_state st).set_valid.finish.1).is_valid
      = decide (6 ≤ st.points.length) := by
  rw [polygon_finish_is_valid]
  show decide (6 ≤ (PaintPolygon.init.set_state st).points.length) = _
  rw [c5PolyAux st]

theorem c5FromStateAux (st : PolygonState) :
    create_shape_from_state (.polygon st)
      = if 6 ≤ st.points.length then
          Except.ok
            (.polygon ((PaintPolygon.init.set_state st).set_valid.finish.1))
        else Except.error "Shape is not valid and cannot be added" := by
  unfold create_shape_from_state
  simp only [AnyShape.set_valid, AnyShape.finish, AnyShape.is_valid]
  rw [c5ValidAux st]
  by_cases h6 : 6 ≤ st.points.length <;> simp [h6]

theorem c5CreateAux (p0 : PaintPolygon) :
    create_shape (.polygon p0)
      = if 6 ≤ p0.points.length then
          Except.ok (.polygon (p0.set_valid.finish.1))
        else Except.error "Shape is not valid and cannot be added" := by
  unfold create_shape
  simp only [AnyShape.set_valid, AnyShape.finish, AnyShape.is_valid]
  rw [show (p0.set_valid.finish.1).is_valid = decide (6 ≤ p0.points.length)
    from by rw [polygon_finish_is_valid]; rfl]
  by_cases h6 : 6 ≤ p0.points.length <;> simp [h6]

theorem c5CircleAux (cst : CircleState) :
    PaintCircle.init.set_state cst
      = { toPaintShape :=
            { PaintShape.init with
                line_color := cst.line_color
                line_width := cst.line_width
                is_valid := cst.is_valid
                line_color_locked := cst.line_color_locked
                finished := true
                ready_to_finish := true
                locked := cst.locked }
          center := cst.center
          radius := cst.radius } := by
  unfold PaintCircle.set_state PaintCircle.finish PaintShape.finish
    PaintCircle.lock PaintCircle.unlock PaintShape.lock PaintShape.unlock
  by_cases hl : cst.locked <;> simp [hl, PaintCircle.init, PaintShape.init]

theorem c5EllipseAux (est : EllipseState) :
    PaintEllipse.init.set_state est
      = { toPaintShape :=
            { PaintShape.init with
                line_color := est.line_color
                line_width := est.line_width
                is_valid := est.is_valid
                line_color_locked := est.line_color_locked
                finished := true
                ready_to_finish := true
                locked := est.locked }
          center := est.center
          radius_x := est.radius_x
          radius_y := est.radius_y
          angle := est.angle } := by
  unfold PaintEllipse.set_state PaintEllipse.finish PaintShape.finish
    PaintEllipse.lock PaintEllipse.unlock PaintShape.lock PaintShape.unlock
  by_cases hl : est.locked <;> simp [hl, PaintEllipse.init, PaintShape.init]

theorem c5CircleFinAux (cst : CircleState) :
    (PaintCircle.init.set_state cst).finish.1
      = PaintCircle.init.set_state cst := by
  unfold PaintCircle.finish PaintShape.finish
  rw [c5CircleAux cst]
  simp

theorem c5EllipseFinAux (est : EllipseState) :
    (PaintEllipse.init.set_state est).finish.1
      = PaintEllipse.init.set_state est := by
  unfold PaintEllipse.finish PaintShape.finish
  rw [c5EllipseAux est]
  simp

theorem c5CircleFromStateAux (cst : CircleState) :
    create_shape_from_state (.circle cst)
      = if cst.is_valid then
          Except.ok (.circle (PaintCircle.init.set_state cst))
        else Except.error "Shape is not valid and cannot be added" := by
  unfold create_shape_from_state
  simp only [AnyShape.set_valid, AnyShape.finish, AnyShape.is_valid]
  rw [c5CircleFinAux cst]
  rw [show (PaintCircle.init.set_state cst).is_valid = cst.is_valid from by
    rw [c5CircleAux cst]]

theorem c5EllipseFromStateAux (est : EllipseState) :
    create_shape_from_state (.ellipse est)
      = if est.is_valid then
          Except.ok (.ellipse (PaintEllipse.init.set_state est))
        else Except.error "Shape is not valid and cannot be added" := by
  unfold create_shape_from_state
  simp only [AnyShape.set_valid, AnyShape.finish, AnyShape.is_valid]
  rw [c5EllipseFinAux est]
  rw [show (PaintEllipse.init.set_state est).is_valid = est.is_valid from by
    rw [c5EllipseAux est]]

theorem c5FreeformFromStateAux (fs : PolygonState) :
    create_shape_from_state (.freeform fs)
      = if 6 ≤ fs.points.length then
          Except.ok
            (.freeform ((PaintPolygon.init.set_state fs).set_valid.finish.1))
        else Except.error "Shape is not valid and cannot be added" := by
  unfold create_shape_from_state
  simp only [AnyShape.set_valid, AnyShape.finish, AnyShape.is_valid]
  rw [c5ValidAux fs]
  by_cases h6 : 6 ≤ fs.points.length <;> simp [h6]

theorem c5CreateCircleAux (c : PaintCircle) :
    create_shape (.circle c)
      = if c.is_valid then Except.ok (.circle c.finish.1)
        else Except.error "Shape is not valid and cannot be added" := by
  unfold create_shape
  simp only [AnyShape.set_valid, AnyShape.finish, AnyShape.is_valid]
  rw [show (c.finish.1).is_valid = c.is_valid from by
    unfold PaintCircle.finish PaintShape.finish
    by_cases hf : c.finished <;> simp [hf]]

theorem c5CreateEllipseAux (el : PaintEllipse) :
    create_shape (.ellipse el)
      = if el.is_valid then Except.ok (.ellipse el.finish.1)
        else Except.error "Shape is not valid and cannot be added" := by
  unfold create_shape
  simp only [AnyShape.set_valid, AnyShape.finish, AnyShape.is_valid]
  rw [show (el.finish.1).is_valid = el.is_valid from by
    unfold PaintEllipse.finish PaintShape.finish
    by_cases hf : el.finished <;> simp [hf]]

/-- A state dict describing a valid triangle. -/
def c5GoodState : PolygonState :=
  { line_color := [0, 1, 0, 1]
    line_width := 1
    is_valid := false
    locked := false
    line_color_locked := [0, 1, 0, 1]
    points := [0, 0, 10, 0, 10, 10]
    selection_point := [0, 0] }

/-- A degenerate polygon instance with a single vertex. -/
def c5BadPoly : PaintPolygon :=
  { PaintPolygon.init with points := [1, 2], selection_point := [1, 2] }

/-- A circle state dict carrying `is_valid=false`: the geometry
(center `(50, 50)`, radius 10) is a perfectly valid circle. -/
def c5CircleBadState : CircleState :=
  { line_color := [0, 1, 0, 1]
    line_width := 1
    is_valid := false
    locked := false
    line_color_locked := [0, 1, 0, 1]
    center := (50, 50)
    radius := 10 }

/-- The same circle state dict with `is_valid=true`. -/
def c5CircleOkState : CircleState :=
  { c5CircleBadState with is_valid := true }

/-- C5, counterexample: the positive half of the claim ("for every
valid state they return the reconstructed shape") is false.  A circle
state dict whose `is_valid` entry is `false` describes a geometrically
valid shape — the identical geometry with `is_valid=true` is accepted —
yet `create_shape_from_state` raises the `ValueError`: `set_state`
restores the serialized `is_valid` flag and the circle's `set_valid`
is a pass, so the stale flag alone decides the validation. -/
theorem C5_counterexample :
    c5CircleBadState.is_valid = false ∧
    create_shape_from_state (.circle c5CircleBadState)
      = Except.error "Shape is not valid and cannot be added" ∧
    create_shape_from_state (.circle c5CircleOkState)
      = Except.ok (.circle (PaintCircle.init.set_state c5CircleOkState)) := by
  refine ⟨rfl, ?_, ?_⟩
  · rw [c5CircleFromStateAux c5CircleBadState]
    rfl
  · rw [c5CircleFromStateAux c5CircleOkState]
    rfl

/-- C5 (amended): a polygon or freeform state dict with fewer than 3
vertices (fewer than 6 flattened coordinates) makes both
`create_shape_from_state` (with or without `add`) and `create_shape`
raise `ValueError`, and the shape is not admitted; polygon/freeform
states with 3 or more vertices, and circle/ellipse states whose
serialized `is_valid` entry is true, are reconstructed and returned
(`create_shape_from_state` appends the shape to the painter's `shapes`
exactly when `add` is requested, and `create_shape` accepts any
circle/ellipse instance whose `is_valid` flag is set — as every
freshly constructed one is).  A circle or ellipse state whose
`is_valid` entry is false is rejected even though its geometry is
valid (see the counterexample), because `set_state` restores the
serialized flag and `set_valid` is a no-op for those variants. -/
theorem C5_create_shape_validation (st : PolygonState) (add : Bool)
    (shapes : List AnyShape) (p0 : PaintPolygon) (fs : PolygonState)
    (cst : CircleState) (est : EllipseState) (c : PaintCircle)
    (el : PaintEllipse) :
    (st.points.length < 6 →
      create_shape_from_state (.polygon st)
        = Except.error "Shape is not valid and cannot be added" ∧
      create_shape_from_state_add (.polygon st) add shapes
        = Except.error "Shape is not valid and cannot be added") ∧
    (6 ≤ st.points.length →
      create_shape_from_state (.polygon st)
        = Except.ok
            (.polygon ((PaintPolygon.init.set_state st).set_valid.finish.1)) ∧
      create_shape_from_state_add (.polygon st) add shapes
        = Except.ok
            (.polygon ((PaintPolygon.init.set_state st).set_valid.finish.1),
              if add then
                shapes ++
                  [.polygon ((PaintPolygon.init.set_state st).set_valid.finish.1)]
              else shapes) ∧
      ((PaintPolygon.init.set_state st).set_valid.finish.1).is_valid = true) ∧
    (p0.points.length < 6 →
      create_shape (.polygon p0)
        = Except.error "Shape is not valid and cannot be added") ∧
    (6 ≤ p0.points.length →
      create_shape (.polygon p0)
        = Except.ok (.polygon (p0.set_valid.finish.1)) ∧
      (p0.set_valid.finish.1).is_valid = true) ∧
    (fs.points.length < 6 →
      create_shape_from_state (.freeform fs)
        = Except.error "Shape is not valid and cannot be added" ∧
      create_shape_from_state_add (.freeform fs) add shapes
        = Except.error "Shape is not valid and cannot be added") ∧
    (6 ≤ fs.points.length →
      create_shape_from_state (.freeform fs)
        = Except.ok
            (.freeform ((PaintPolygon.init.set_state fs).set_valid.finish.1)) ∧
      create_shape_from_state_add (.freeform fs) add shapes
        = Except.ok
            (.freeform ((PaintPolygon.init.set_state fs).set_valid.finish.1),
              if add then
                shapes ++
                  [.freeform
                    ((PaintPolygon.init.set_state fs).set_valid.finish.1)]
              else shapes) ∧
      ((PaintPolygon.init.set_state fs).set_valid.finish.1).is_valid = true) ∧
    (cst.is_valid = true →
      create_shape_from_state (.circle cst)
        = Except.ok (.circle (PaintCircle.init.set_state cst)) ∧
      create_shape_from_state_add (.circle cst) add shapes
        = Except.ok (.circle (PaintCircle.init.set_state cst),
            if add then
              shapes ++ [.circle (PaintCircle.init.set_state cst)]
            else shapes)) ∧
    (cst.is_valid = false →
      create_shape_from_state (.circle cst)
        = Except.error "Shape is not valid and cannot be added") ∧
    (est.is_valid = true →
      create_shape_from_state (.ellipse est)
        = Except.ok (.ellipse (PaintEllipse.init.set_state est)) ∧
      create_shape_from_state_add (.ellipse est) add shapes
        = Except.ok (.ellipse (PaintEllipse.init.set_state est),
            if add then
              shapes ++ [.ellipse (PaintEllipse.init.set_state est)]
            else shapes)) ∧
    (est.is_valid = false →
      create_shape_from_state (.ellipse est)
        = Except.error "Shape is not valid and cannot be added") ∧
    (c.is_valid = true →
      create_shape (.circle c) = Except.ok (.circle c.finish.1)) ∧
    (el.is_valid = true →
      create_shape (.ellipse el) = Except.ok (.ellipse el.finish.1)) := by
  refine ⟨?_, ?_, ?_, ?_, ?_, ?_, ?_, ?_, ?_, ?_, ?_, ?_⟩
  · intro hlt
    have h6 : ¬(6 ≤ st.points.length) := by omega
    have he := c5FromStateAux st
    rw [if_neg h6] at he
    refine ⟨he, ?_⟩
    unfold create_shape_from_state_add
    rw [he]
  · intro h6
    have he := c5FromStateAux st
    rw [if_pos h6] at he
    refine ⟨he, ?_, ?_⟩
    · unfold create_shape_from_state_add
      rw [he]
    · rw [c5ValidAux st]
      exact decide_eq_true h6
  · intro hlt
    have h6 : ¬(6 ≤ p0.points.length) := by omega
    have he := c5CreateAux p0
    rw [if_neg h6] at he
    exact he
  · intro h6
    have he := c5CreateAux p0
    rw [if_pos h6] at he
    refine ⟨he, ?_⟩
    rw [show (p0.set_valid.finish.1).is_valid = decide (6 ≤ p0.points.length)
      from by rw [polygon_finish_is_valid]; rfl]
    exact decide_eq_true h6
  · intro hlt
    have h6 : ¬(6 ≤ fs.points.length) := by omega
    have he := c5FreeformFromStateAux fs
    rw [if_neg h6] at he
    refine ⟨he, ?_⟩
    unfold create_shape_from_state_add
    rw [he]
  · intro h6
    have he := c5FreeformFromStateAux fs
    rw [if_pos h6] at he
    refine ⟨he, ?_, ?_⟩
    · unfold create_shape_from_state_add
      rw [he]
    · rw [c5ValidAux fs]
      exact decide_eq_true h6
  · intro hv
    have he := c5CircleFromStateAux cst
    rw [if_pos hv] at he
    refine ⟨he, ?_⟩
    unfold create_shape_from_state_add
    rw [he]
  · intro hv
    have he := c5CircleFromStateAux cst
    rw [if_neg (by simp [hv])] at he
    exact he
  · intro hv
    have he := c5EllipseFromStateAux est
    rw [if_pos hv] at he
    refine ⟨he, ?_⟩
    unfold create_shape_from_state_add
    rw [he]
  · intro hv
    have he := c5EllipseFromStateAux est
    rw [if_neg (by simp [hv])] at he
    exact he
  · intro hv
    have he := c5CreateCircleAux c
    rw [if_pos hv] at he
    exact he
  · intro hv
    have he := c5CreateEllipseAux el
    rw [if_pos hv] at he
    exact he

/-- Witness for `C5_create_shape_validation`: the triangle state is
reconstructed and added (as polygon and as freeform), the one-vertex
polygon instance is rejected by `create_shape`, the circle state with
`is_valid=true` is reconstructed and added, and a fresh circle
instance passes `create_shape`. -/
theorem C5_create_shape_validation_witness :
    6 ≤ c5GoodState.points.length ∧ c5BadPoly.points.length < 6 ∧
    c5CircleOkState.is_valid = true ∧ PaintCircle.init.is_valid = true ∧
    (create_shape_from_state (.polygon c5GoodState)
        = Except.ok
            (.polygon
              ((PaintPolygon.init.set_state c5GoodState).set_valid.finish.1)) ∧
      create_shape_from_state_add (.polygon c5GoodState) true []
        = Except.ok
            (.polygon
              ((PaintPolygon.init.set_state c5GoodState).set_valid.finish.1),
              if true then
                [] ++
                  [.polygon
                    ((PaintPolygon.init.set_state c5GoodState).set_valid.finish.1)]
              else []) ∧
      ((PaintPolygon.init.set_state c5GoodState).set_valid.finish.1).is_valid
        = true) ∧
    create_shape (.polygon c5BadPoly)
      = Except.error "Shape is not valid and cannot be added" ∧
    (create_shape_from_state (.freeform c5GoodState)
        = Except.ok
            (.freeform
              ((PaintPolygon.init.set_state c5GoodState).set_valid.finish.1)) ∧
      create_shape_from_state_add (.freeform c5GoodState) true []
        = Except.ok
            (.freeform
              ((PaintPolygon.init.set_state c5GoodState).set_valid.finish.1),
              if true then
                [] ++
                  [.freeform
                    ((PaintPolygon.init.set_state c5GoodState).set_valid.finish.1)]
              else []) ∧
      ((PaintPolygon.init.set_state c5GoodState).set_valid.finish.1).is_valid
        = true) ∧
    (create_shape_from_state (.circle c5CircleOkState)
        = Except.ok (.circle (PaintCircle.init.set_state c5CircleOkState)) ∧
      create_shape_from_state_add (.circle c5CircleOkState) true []
        = Except.ok (.circle (PaintCircle.init.set_state c5CircleOkState),
            if true then
              [] ++ [.circle (PaintCircle.init.set_state c5CircleOkState)]
            else [])) ∧
    create_shape (.circle PaintCircle.init)
      = Except.ok (.circle PaintCircle.init.finish.1) :=
by
  refine ⟨?_, ?_, ?_, ?_, ?_, ?_, ?_, ?_, ?_⟩
  · decide
  · decide
  · rfl
  · rfl
  · exact (C5_create_shape_validation c5GoodState true [] c5BadPoly c5GoodState
      c5CircleOkState PaintEllipse.init.get_state PaintCircle.init
      PaintEllipse.init).2.1 (by decide)
  · exact (C5_create_shape_validation c5GoodState true [] c5BadPoly c5GoodState
      c5CircleOkState PaintEllipse.init.get_state PaintCircle.init
      PaintEllipse.init).2.2.1 (by decide)
  · exact (C5_create_shape_validation c5GoodState true [] c5BadPoly c5GoodState
      c5CircleOkState PaintEllipse.init.get_state PaintCircle.init
      PaintEllipse.init).2.2.2.2.2.1 (by decide)
  · exact (C5_create_shape_validation c5GoodState true [] c5BadPoly c5GoodState
      c5CircleOkState PaintEllipse.init.get_state PaintCircle.init
      PaintEllipse.init).2.2.2.2.2.2.1 rfl
  · exact (C5_create_shape_validation c5GoodState true [] c5BadPoly c5GoodState
      c5CircleOkState PaintEllipse.init.get_state PaintCircle.init
      PaintEllipse.init).2.2.2.2.2.2.2.2.2.2.1 rfl
